import Mathlib

/-!
Verification of the logical-decoding snapshot builder and its on-disk
snapshot format, as implemented in
`contrib/pg_logicalsnapinspect/pg_logicalsnapinspect.c` and declared in
`src/include/replication/snapbuild.h`.

Bytes are modelled as natural numbers (every real byte is `< 256`); files
are byte lists; multi-byte integers are little-endian.  The checksum is
the CRC-32C (Castagnoli) algorithm of `port/pg_crc32c.h`
(`INIT_CRC32C` = 0xFFFFFFFF, reflected polynomial 0x82F63B78,
`FIN_CRC32C` xors with 0xFFFFFFFF), written here in its bit-at-a-time
form.
-/

namespace SnapInspect

/-- Little-endian value of a byte list (each byte is reduced mod 256,
as a C byte buffer would). -/
def decodeLE : List Nat → Nat
  | [] => 0
  | b :: bs => b % 256 + 256 * decodeLE bs

/-- Little-endian 4-byte encoding of a 32-bit value. -/
def u32le (n : Nat) : List Nat :=
  [n % 256, n / 256 % 256, n / 65536 % 256, n / 16777216 % 256]

/-- Little-endian 8-byte encoding of a 64-bit value. -/
def u64le (n : Nat) : List Nat :=
  u32le (n % 4294967296) ++ u32le (n / 4294967296)

@[simp] theorem u32le_length (n : Nat) : (u32le n).length = 4 := rfl

@[simp] theorem u64le_length (n : Nat) : (u64le n).length = 8 := rfl

theorem decodeLE_append (a b : List Nat) :
    decodeLE (a ++ b) = decodeLE a + 256 ^ a.length * decodeLE b := by
  induction a with
  | nil => simp [decodeLE]
  | cons x xs ih =>
      simp [decodeLE, ih, Nat.pow_succ]
      ring

@[simp] theorem decodeLE_u32le (n : Nat) (h : n < 4294967296) :
    decodeLE (u32le n) = n := by
  simp [u32le, decodeLE]
  omega

@[simp] theorem decodeLE_u64le (n : Nat) (h : n < 18446744073709551616) :
    decodeLE (u64le n) = n := by
  rw [u64le, decodeLE_append]
  rw [decodeLE_u32le _ (by omega : n % 4294967296 < 4294967296)]
  rw [decodeLE_u32le _ (by omega : n / 4294967296 < 4294967296)]
  rw [u32le_length]
  have hp : (256 : Nat) ^ 4 = 4294967296 := by norm_num
  rw [hp]
  omega

theorem u32le_bytes_lt (n : Nat) : ∀ x ∈ u32le n, x < 256 := by
  simp [u32le]
  omega

theorem u64le_bytes_lt (n : Nat) : ∀ x ∈ u64le n, x < 256 := by
  simp only [u64le, List.mem_append]
  intro x hx
  rcases hx with h | h
  · exact u32le_bytes_lt _ x h
  · exact u32le_bytes_lt _ x h

/-! ## CRC-32C (Castagnoli), bit-at-a-time, reflected form -/

/-- The reflected CRC-32C polynomial. -/
def CRC32C_POLY : Nat := 0x82F63B78

/-- One bit step of the reflected CRC computation. -/
def crcBitStep (c : Nat) : Nat :=
  if c % 2 = 1 then (c / 2) ^^^ CRC32C_POLY else c / 2

/-- Process one input byte: xor it into the low bits, then do eight bit
steps.  This is the bit-at-a-time equivalent of `COMP_CRC32C` for one
byte. -/
def crcByteStep (c b : Nat) : Nat :=
  crcBitStep (crcBitStep (crcBitStep (crcBitStep (crcBitStep (crcBitStep
    (crcBitStep (crcBitStep (c ^^^ b % 256))))))))

/-- `COMP_CRC32C` over a byte list. -/
def crcComp (c : Nat) (bs : List Nat) : Nat := bs.foldl crcByteStep c

/-- `INIT_CRC32C`. -/
def CRC_INIT : Nat := 0xFFFFFFFF

/-- `FIN_CRC32C`. -/
def crcFin (c : Nat) : Nat := c ^^^ 0xFFFFFFFF

/-- The full checksum of a byte list. -/
def crc32cOf (bs : List Nat) : Nat := crcFin (crcComp CRC_INIT bs)

theorem crcBitStep_lt {c : Nat} (h : c < 4294967296) :
    crcBitStep c < 4294967296 := by
  unfold crcBitStep
  split
  · have h1 : c / 2 < 2 ^ 32 := by omega
    have h2 : CRC32C_POLY < 2 ^ 32 := by decide
    have := Nat.xor_lt_two_pow h1 h2
    omega
  · omega

theorem crcBitStep_inj {a b : Nat} (ha : a < 4294967296)
    (hb : b < 4294967296) (h : crcBitStep a = crcBitStep b) : a = b := by
  have hta : a / 2 < 2 ^ 31 := by omega
  have htb : b / 2 < 2 ^ 31 := by omega
  unfold crcBitStep at h
  by_cases h1 : a % 2 = 1 <;> by_cases h2 : b % 2 = 1
  · rw [if_pos h1, if_pos h2] at h
    have := Nat.xor_left_injective h
    omega
  · rw [if_pos h1, if_neg h2] at h
    exfalso
    have hbit := congrArg (fun n => n.testBit 31) h
    simp only [Nat.testBit_xor] at hbit
    rw [Nat.testBit_lt_two_pow hta, Nat.testBit_lt_two_pow htb] at hbit
    have : CRC32C_POLY.testBit 31 = true := by decide
    rw [this] at hbit
    simp at hbit
  · rw [if_neg h1, if_pos h2] at h
    exfalso
    have hbit := congrArg (fun n => n.testBit 31) h
    simp only [Nat.testBit_xor] at hbit
    rw [Nat.testBit_lt_two_pow hta, Nat.testBit_lt_two_pow htb] at hbit
    have : CRC32C_POLY.testBit 31 = true := by decide
    rw [this] at hbit
    simp at hbit
  · rw [if_neg h1, if_neg h2] at h
    omega

theorem crcByteStep_lt {c : Nat} (b : Nat) (h : c < 4294967296) :
    crcByteStep c b < 4294967296 := by
  unfold crcByteStep
  have h0 : c ^^^ b % 256 < 4294967296 := by
    have h1 : c < 2 ^ 32 := by omega
    have h2 : b % 256 < 2 ^ 32 := by omega
    have := Nat.xor_lt_two_pow h1 h2
    omega
  exact crcBitStep_lt (crcBitStep_lt (crcBitStep_lt (crcBitStep_lt
    (crcBitStep_lt (crcBitStep_lt (crcBitStep_lt (crcBitStep_lt h0)))))))

theorem crcByteStep_inj_left {c1 c2 b : Nat} (h1 : c1 < 4294967296)
    (h2 : c2 < 4294967296) (hne : c1 ≠ c2) :
    crcByteStep c1 b ≠ crcByteStep c2 b := by
  intro h
  apply hne
  have hx1 : c1 ^^^ b % 256 < 4294967296 := by
    have := Nat.xor_lt_two_pow (x := c1) (y := b % 256) (n := 32)
      (by omega) (by omega)
    omega
  have hx2 : c2 ^^^ b % 256 < 4294967296 := by
    have := Nat.xor_lt_two_pow (x := c2) (y := b % 256) (n := 32)
      (by omega) (by omega)
    omega
  unfold crcByteStep at h
  have step := fun {x y : Nat} (hx : x < 4294967296) (hy : y < 4294967296)
    (he : crcBitStep x = crcBitStep y) => crcBitStep_inj hx hy he
  have l1 := crcBitStep_lt hx1
  have l2 := crcBitStep_lt (crcBitStep_lt hx1)
  have l3 := crcBitStep_lt l2
  have l4 := crcBitStep_lt l3
  have l5 := crcBitStep_lt l4
  have l6 := crcBitStep_lt l5
  have l7 := crcBitStep_lt l6
  have m1 := crcBitStep_lt hx2
  have m2 := crcBitStep_lt (crcBitStep_lt hx2)
  have m3 := crcBitStep_lt m2
  have m4 := crcBitStep_lt m3
  have m5 := crcBitStep_lt m4
  have m6 := crcBitStep_lt m5
  have m7 := crcBitStep_lt m6
  have e7 := step l7 m7 h
  have e6 := step l6 m6 e7
  have e5 := step l5 m5 e6
  have e4 := step l4 m4 e5
  have e3 := step l3 m3 e4
  have e2 := step l2 m2 e3
  have e1 := step l1 m1 e2
  have e0 := step hx1 hx2 e1
  exact Nat.xor_left_injective e0

theorem crcByteStep_inj_byte {c b1 b2 : Nat} (hc : c < 4294967296)
    (hb1 : b1 < 256) (hb2 : b2 < 256) (hne : b1 ≠ b2) :
    crcByteStep c b1 ≠ crcByteStep c b2 := by
  intro h
  apply hne
  have hx1 : c ^^^ b1 % 256 < 4294967296 := by
    have := Nat.xor_lt_two_pow (x := c) (y := b1 % 256) (n := 32)
      (by omega) (by omega)
    omega
  have hx2 : c ^^^ b2 % 256 < 4294967296 := by
    have := Nat.xor_lt_two_pow (x := c) (y := b2 % 256) (n := 32)
      (by omega) (by omega)
    omega
  unfold crcByteStep at h
  have l1 := crcBitStep_lt hx1
  have l2 := crcBitStep_lt l1
  have l3 := crcBitStep_lt l2
  have l4 := crcBitStep_lt l3
  have l5 := crcBitStep_lt l4
  have l6 := crcBitStep_lt l5
  have l7 := crcBitStep_lt l6
  have m1 := crcBitStep_lt hx2
  have m2 := crcBitStep_lt m1
  have m3 := crcBitStep_lt m2
  have m4 := crcBitStep_lt m3
  have m5 := crcBitStep_lt m4
  have m6 := crcBitStep_lt m5
  have m7 := crcBitStep_lt m6
  have e7 := crcBitStep_inj l7 m7 h
  have e6 := crcBitStep_inj l6 m6 e7
  have e5 := crcBitStep_inj l5 m5 e6
  have e4 := crcBitStep_inj l4 m4 e5
  have e3 := crcBitStep_inj l3 m3 e4
  have e2 := crcBitStep_inj l2 m2 e3
  have e1 := crcBitStep_inj l1 m1 e2
  have e0 := crcBitStep_inj hx1 hx2 e1
  have := Nat.xor_right_injective e0
  omega

theorem crcComp_lt {c : Nat} (bs : List Nat) (h : c < 4294967296) :
    crcComp c bs < 4294967296 := by
  induction bs generalizing c with
  | nil => exact h
  | cons b bs ih => exact ih (crcByteStep_lt b h)

theorem crcComp_inj {c1 c2 : Nat} (bs : List Nat) (h1 : c1 < 4294967296)
    (h2 : c2 < 4294967296) (hne : c1 ≠ c2) :
    crcComp c1 bs ≠ crcComp c2 bs := by
  induction bs generalizing c1 c2 with
  | nil => exact hne
  | cons b bs ih =>
      exact ih (crcByteStep_lt b h1) (crcByteStep_lt b h2)
        (crcByteStep_inj_left h1 h2 hne)

theorem crcComp_append (c : Nat) (a b : List Nat) :
    crcComp c (a ++ b) = crcComp (crcComp c a) b := by
  simp [crcComp]

theorem crcComp_nil (c : Nat) : crcComp c [] = c := rfl

/-- Flipping one byte of the input (at the same position, with real byte
values) changes the running CRC. -/
theorem crcComp_single_byte_flip {c : Nat} (a mid : List Nat) {x y : Nat}
    (hc : c < 4294967296) (hx : x < 256) (hy : y < 256) (hne : x ≠ y) :
    crcComp c (a ++ x :: mid) ≠ crcComp c (a ++ y :: mid) := by
  rw [crcComp_append, crcComp_append]
  have hca : crcComp c a < 4294967296 := crcComp_lt a hc
  show crcComp (crcComp c a) (x :: mid) ≠ crcComp (crcComp c a) (y :: mid)
  simp only [crcComp, List.foldl_cons]
  exact crcComp_inj mid (crcByteStep_lt x hca) (crcByteStep_lt y hca)
    (crcByteStep_inj_byte hca hx hy hne)

theorem crcFin_inj {a b : Nat} (h : a ≠ b) : crcFin a ≠ crcFin b := by
  intro he
  exact h (Nat.xor_left_injective he)

/-! ## Data model: `SnapBuildState`, `SnapBuild`, and the on-disk layout

From `src/include/replication/snapbuild.h`.  The C struct `SnapBuild`
contains three pointers (`context`, `snapshot`, `reorder`) and two
element pointers (`committed.xip`, `catchange.xip`); on disk those
pointer slots are meaningless and the writer nulls them, so the byte
model emits eight zero bytes for each and the decoder skips them.
Field widths follow the C types (enum/int 4, pointer 8, TransactionId 4,
XLogRecPtr 8, size_t 8, bool 1); struct padding is abstracted away (the
exact C padding is compiler-specific), giving a fixed 111-byte block. -/

/-- The four states of `SnapBuildState` (C values -1, 0, 1, 2). -/
inductive SnapBuildState where
  | START
  | BUILDING_SNAPSHOT
  | FULL_SNAPSHOT
  | CONSISTENT
deriving DecidableEq

/-- The C enum value, as the unsigned 32-bit pattern stored on disk
(`SNAPBUILD_START` is -1). -/
def SnapBuildState.toDiskCode : SnapBuildState → Nat
  | .START => 4294967295
  | .BUILDING_SNAPSHOT => 0
  | .FULL_SNAPSHOT => 1
  | .CONSISTENT => 2

/-- Read a state back from its 32-bit disk pattern (total: unknown
codes fall back to `BUILDING_SNAPSHOT`; the reader never validates this
field). -/
def stateOfDiskCode (n : Nat) : SnapBuildState :=
  if n = 4294967295 then .START
  else if n = 1 then .FULL_SNAPSHOT
  else if n = 2 then .CONSISTENT
  else .BUILDING_SNAPSHOT

/-- Position of a state in the phase order
Start < BuildingSnapshot < FullSnapshot < Consistent. -/
def SnapBuildState.idx : SnapBuildState → Nat
  | .START => 0
  | .BUILDING_SNAPSHOT => 1
  | .FULL_SNAPSHOT => 2
  | .CONSISTENT => 3

/-- The in-memory snapshot-builder state (struct `SnapBuild`).  The
committed and catalog-change arrays are lists; their `xcnt` counts are
the list lengths.  `committed_xcnt_space` is the capacity field
`committed.xcnt_space`. -/
structure SnapBuild where
  state : SnapBuildState
  xmin : Nat
  xmax : Nat
  start_decoding_at : Nat
  two_phase_at : Nat
  initial_xmin_horizon : Nat
  building_full_snapshot : Bool
  in_slot_creation : Bool
  last_serialized_snapshot : Nat
  next_phase_at : Nat
  committed_xcnt_space : Nat
  committed_includes_all_transactions : Bool
  committed_xip : List Nat
  catchange_xip : List Nat
deriving DecidableEq

/-- The fixed-size fields as decoded from the on-disk state block.  The
array counts stand alone here because on an arbitrary file they drive
how many array bytes the reader consumes next. -/
structure SnapBuildFields where
  state : SnapBuildState
  xmin : Nat
  xmax : Nat
  start_decoding_at : Nat
  two_phase_at : Nat
  initial_xmin_horizon : Nat
  building_full_snapshot : Bool
  in_slot_creation : Bool
  last_serialized_snapshot : Nat
  next_phase_at : Nat
  committed_xcnt : Nat
  committed_xcnt_space : Nat
  committed_includes_all_transactions : Bool
  catchange_xcnt : Nat
deriving DecidableEq

def SNAPBUILD_MAGIC : Nat := 0x51A1E001

def SNAPBUILD_VERSION : Nat := 6

/-- `offsetof(SnapBuildOnDisk, builder)`: magic, checksum, version,
length — four 4-byte fields. -/
def SnapBuildOnDiskConstantSize : Nat := 16

/-- `offsetof(SnapBuildOnDisk, version)`: magic and checksum. -/
def SnapBuildOnDiskNotChecksummedSize : Nat := 8

/-- Byte size of the fixed `SnapBuild` block in this model. -/
def sizeofSnapBuild : Nat := 111

/-- A nulled pointer slot on disk. -/
def ptr8 : List Nat := [0, 0, 0, 0, 0, 0, 0, 0]

/-- A C bool on disk. -/
def bool1 (b : Bool) : List Nat := [if b then 1 else 0]

@[simp] theorem ptr8_length : ptr8.length = 8 := rfl

@[simp] theorem bool1_length (b : Bool) : (bool1 b).length = 1 := rfl

/-- Byte image of the fixed `SnapBuild` block, fields in declaration
order of the C struct. -/
def encodeSnapBuild (sb : SnapBuild) : List Nat :=
  u32le sb.state.toDiskCode ++ ptr8 ++ u32le sb.xmin ++ u32le sb.xmax ++
  u64le sb.start_decoding_at ++ u64le sb.two_phase_at ++
  u32le sb.initial_xmin_horizon ++ bool1 sb.building_full_snapshot ++
  bool1 sb.in_slot_creation ++ ptr8 ++
  u64le sb.last_serialized_snapshot ++ ptr8 ++
  u32le sb.next_phase_at ++ u64le sb.committed_xip.length ++
  u64le sb.committed_xcnt_space ++
  bool1 sb.committed_includes_all_transactions ++ ptr8 ++
  u64le sb.catchange_xip.length ++ ptr8

theorem encodeSnapBuild_length (sb : SnapBuild) :
    (encodeSnapBuild sb).length = sizeofSnapBuild := by
  simp [encodeSnapBuild, sizeofSnapBuild]

/-- Reinterpret a raw byte list as the fixed `SnapBuild` block
(sequential field consumption; total on any input, as C struct
reinterpretation is). -/
def decodeSnapBuild (l : List Nat) : SnapBuildFields :=
  let stB := l.take 4
  let r1 := l.drop 4
  let r2 := r1.drop 8
  let xminB := r2.take 4
  let r3 := r2.drop 4
  let xmaxB := r3.take 4
  let r4 := r3.drop 4
  let sdaB := r4.take 8
  let r5 := r4.drop 8
  let tpaB := r5.take 8
  let r6 := r5.drop 8
  let ixhB := r6.take 4
  let r7 := r6.drop 4
  let bfsB := r7.take 1
  let r8 := r7.drop 1
  let iscB := r8.take 1
  let r9 := r8.drop 1
  let r10 := r9.drop 8
  let lssB := r10.take 8
  let r11 := r10.drop 8
  let r12 := r11.drop 8
  let npaB := r12.take 4
  let r13 := r12.drop 4
  let cxcB := r13.take 8
  let r14 := r13.drop 8
  let cxsB := r14.take 8
  let r15 := r14.drop 8
  let incB := r15.take 1
  let r16 := r15.drop 1
  let r17 := r16.drop 8
  let ccB := r17.take 8
  { state := stateOfDiskCode (decodeLE stB)
    xmin := decodeLE xminB
    xmax := decodeLE xmaxB
    start_decoding_at := decodeLE sdaB
    two_phase_at := decodeLE tpaB
    initial_xmin_horizon := decodeLE ixhB
    building_full_snapshot := decide (decodeLE bfsB ≠ 0)
    in_slot_creation := decide (decodeLE iscB ≠ 0)
    last_serialized_snapshot := decodeLE lssB
    next_phase_at := decodeLE npaB
    committed_xcnt := decodeLE cxcB
    committed_xcnt_space := decodeLE cxsB
    committed_includes_all_transactions := decide (decodeLE incB ≠ 0)
    catchange_xcnt := decodeLE ccB }

/-- Byte image of a TransactionId array. -/
def xidsBytes : List Nat → List Nat
  | [] => []
  | x :: xs => u32le x ++ xidsBytes xs

theorem xidsBytes_length (xs : List Nat) :
    (xidsBytes xs).length = 4 * xs.length := by
  induction xs with
  | nil => rfl
  | cons x xs ih => simp [xidsBytes, ih]; omega

/-- Read `n` TransactionIds back from a byte list. -/
def decodeXids : Nat → List Nat → List Nat
  | 0, _ => []
  | n + 1, l => decodeLE (l.take 4) :: decodeXids n (l.drop 4)

theorem decodeXids_xidsBytes (xs : List Nat) (rest : List Nat)
    (h : ∀ x ∈ xs, x < 4294967296) :
    decodeXids xs.length (xidsBytes xs ++ rest) = xs := by
  induction xs with
  | nil => rfl
  | cons x xs ih =>
      have hx : x < 4294967296 := h x (by simp)
      simp only [xidsBytes, List.length_cons, decodeXids, List.append_assoc]
      rw [List.take_left' (by simp), List.drop_left' (by simp)]
      rw [decodeLE_u32le _ hx, ih (fun y hy => h y (by simp [hy]))]

/-- A well-formed in-memory builder state: every numeric field fits its
C width, array elements are 32-bit ids, and the catalog-change array is
strictly ascending (the invariant stated on `catchange.xip`). -/
def SnapBuild.valid (sb : SnapBuild) : Prop :=
  sb.xmin < 4294967296 ∧ sb.xmax < 4294967296 ∧
  sb.start_decoding_at < 18446744073709551616 ∧
  sb.two_phase_at < 18446744073709551616 ∧
  sb.initial_xmin_horizon < 4294967296 ∧
  sb.last_serialized_snapshot < 18446744073709551616 ∧
  sb.next_phase_at < 4294967296 ∧
  sb.committed_xcnt_space < 18446744073709551616 ∧
  sb.committed_xip.length < 268435456 ∧
  (∀ x ∈ sb.committed_xip, x < 4294967296) ∧
  sb.catchange_xip.length < 268435456 ∧
  (∀ x ∈ sb.catchange_xip, x < 4294967296) ∧
  List.Sorted (fun a b => a < b) sb.catchange_xip

instance (sb : SnapBuild) : Decidable sb.valid := by
  unfold SnapBuild.valid
  infer_instance

theorem stateOfDiskCode_toDiskCode (s : SnapBuildState) :
    stateOfDiskCode s.toDiskCode = s := by
  cases s <;> rfl

theorem toDiskCode_lt (s : SnapBuildState) : s.toDiskCode < 4294967296 := by
  cases s <;> decide

/-- The fixed fields a builder state carries into the disk block. -/
def SnapBuild.fields (sb : SnapBuild) : SnapBuildFields :=
  { state := sb.state
    xmin := sb.xmin
    xmax := sb.xmax
    start_decoding_at := sb.start_decoding_at
    two_phase_at := sb.two_phase_at
    initial_xmin_horizon := sb.initial_xmin_horizon
    building_full_snapshot := sb.building_full_snapshot
    in_slot_creation := sb.in_slot_creation
    last_serialized_snapshot := sb.last_serialized_snapshot
    next_phase_at := sb.next_phase_at
    committed_xcnt := sb.committed_xip.length
    committed_xcnt_space := sb.committed_xcnt_space
    committed_includes_all_transactions :=
      sb.committed_includes_all_transactions
    catchange_xcnt := sb.catchange_xip.length }

theorem decide_decodeLE_bool1 (b : Bool) :
    decide (decodeLE (bool1 b) ≠ 0) = b := by
  cases b <;> rfl

theorem decodeSnapBuild_encodeSnapBuild (sb : SnapBuild) (rest : List Nat)
    (hv : sb.valid) :
    decodeSnapBuild (encodeSnapBuild sb ++ rest) = sb.fields := by
  obtain ⟨h1, h2, h3, h4, h5, h6, h7, h8, h9, _h10, h11, _h12, _h13⟩ := hv
  simp only [decodeSnapBuild, encodeSnapBuild, List.append_assoc]
  rw [List.take_left' (by simp)]
  rw [List.drop_left' (u32le_length _)]
  rw [List.drop_left' ptr8_length]
  rw [List.take_left' (u32le_length _)]
  rw [List.drop_left' (u32le_length _)]
  rw [List.take_left' (u32le_length _)]
  rw [List.drop_left' (u32le_length _)]
  rw [List.take_left' (u64le_length _)]
  rw [List.drop_left' (u64le_length _)]
  rw [List.take_left' (u64le_length _)]
  rw [List.drop_left' (u64le_length _)]
  rw [List.take_left' (u32le_length _)]
  rw [List.drop_left' (u32le_length _)]
  rw [List.take_left' (bool1_length _)]
  rw [List.drop_left' (bool1_length _)]
  rw [List.take_left' (bool1_length _)]
  rw [List.drop_left' (bool1_length _)]
  rw [List.drop_left' ptr8_length]
  rw [List.take_left' (u64le_length _)]
  rw [List.drop_left' (u64le_length _)]
  rw [List.drop_left' ptr8_length]
  rw [List.take_left' (u32le_length _)]
  rw [List.drop_left' (u32le_length _)]
  rw [List.take_left' (u64le_length _)]
  rw [List.drop_left' (u64le_length _)]
  rw [List.take_left' (u64le_length _)]
  rw [List.drop_left' (u64le_length _)]
  rw [List.take_left' (bool1_length _)]
  rw [List.drop_left' (bool1_length _)]
  rw [List.drop_left' ptr8_length]
  rw [List.take_left' (u64le_length _)]
  rw [decodeLE_u32le _ (toDiskCode_lt _), stateOfDiskCode_toDiskCode]
  rw [decodeLE_u32le _ h1, decodeLE_u32le _ h2]
  rw [decodeLE_u64le _ h3, decodeLE_u64le _ h4]
  rw [decodeLE_u32le _ h5, decodeLE_u64le _ h6, decodeLE_u32le _ h7]
  rw [decodeLE_u64le _ (by omega), decodeLE_u64le _ h8]
  rw [decodeLE_u64le _ (by omega)]
  rw [decide_decodeLE_bool1, decide_decodeLE_bool1, decide_decodeLE_bool1]
  rfl

/-! ## The read path

`ValidateSnapshotFile` from
`contrib/pg_logicalsnapinspect/pg_logicalsnapinspect.c`, lines 37-128.
The file system is abstracted as the outcome of `OpenTransientFile`:
ENOENT, some other errno, or the file's bytes.  `fsync_fname` does not
affect the bytes and is dropped; `CloseTransientFile` is modelled as
succeeding (its failure path is not exercised by any claim); the
private memory context is an allocation detail with no byte-level
meaning. -/

/-- Outcome of `OpenTransientFile(path, O_RDONLY | PG_BINARY)`. -/
inductive OpenResult where
  | missing
  | ioError (errno : Nat)
  | ok (bytes : List Nat)
deriving DecidableEq

/-- The distinct error reports of the read path, one per `ereport`
site. -/
inductive ReadError where
  | fileDoesNotExist (path : String)
  | couldNotOpen (path : String) (errno : Nat)
  | couldNotRead (path : String)
  | wrongMagic (path : String) (found : Nat) (expected : Nat)
  | wrongVersion (path : String) (found : Nat) (expected : Nat)
  | checksumMismatch (path : String) (actual : Nat) (expected : Nat)
deriving DecidableEq

/-- The decoded file: header fields, fixed block, and both arrays
(struct `SnapBuildOnDisk` plus the trailing TransactionIds). -/
structure SnapBuildOnDisk where
  magic : Nat
  checksum : Nat
  version : Nat
  length : Nat
  builder : SnapBuildFields
  committed_xip : List Nat
  catchange_xip : List Nat
deriving DecidableEq

/-- Modelled from the spec: the body of `SnapBuildRestoreContents`
(declared in `snapbuild.h` line 272, defined in the absent
`snapbuild.c`) reads exactly `size` bytes or fails; a truncated file is
a corruption-class read error ("could not read file"). -/
def SnapBuildRestoreContents (l : List Nat) (size : Nat) (path : String) :
    Except ReadError (List Nat × List Nat) :=
  if size ≤ l.length then Except.ok (l.take size, l.drop size)
  else Except.error (ReadError.couldNotRead path)

/-- `ValidateSnapshotFile` of `pg_logicalsnapinspect.c`: open, header,
magic and version checks, checksum accumulation over the version/length
words (from offset `SnapBuildOnDiskNotChecksummedSize` up to
`SnapBuildOnDiskConstantSize`), the fixed block and both arrays, then
the final checksum comparison.  The C locals (`checksum`, the header
fields of `ondisk`) are inlined: `hdrP.1.take 4` is `ondisk->magic`,
`(hdrP.1.drop 4).take 4` is `ondisk->checksum`,
`((hdrP.1.drop 4).drop 4).take 4` is `ondisk->version`, and
`((hdrP.1.drop 4).drop 4).drop 4` is `ondisk->length`. -/
def ValidateSnapshotFile (fd : OpenResult) (path : String) :
    Except ReadError SnapBuildOnDisk :=
  match fd with
  | .missing => Except.error (ReadError.fileDoesNotExist path)
  | .ioError e => Except.error (ReadError.couldNotOpen path e)
  | .ok bytes => do
      let hdrP ←
        SnapBuildRestoreContents bytes SnapBuildOnDiskConstantSize path
      if decodeLE (hdrP.1.take 4) ≠ SNAPBUILD_MAGIC then
        Except.error (ReadError.wrongMagic path (decodeLE (hdrP.1.take 4))
          SNAPBUILD_MAGIC)
      else if decodeLE (((hdrP.1.drop 4).drop 4).take 4) ≠
          SNAPBUILD_VERSION then
        Except.error (ReadError.wrongVersion path
          (decodeLE (((hdrP.1.drop 4).drop 4).take 4)) SNAPBUILD_VERSION)
      else do
        let blkP ← SnapBuildRestoreContents hdrP.2 sizeofSnapBuild path
        let cP ←
          if 0 < (decodeSnapBuild blkP.1).committed_xcnt then
            SnapBuildRestoreContents blkP.2
              (4 * (decodeSnapBuild blkP.1).committed_xcnt) path
          else Except.ok ([], blkP.2)
        let gP ←
          if 0 < (decodeSnapBuild blkP.1).catchange_xcnt then
            SnapBuildRestoreContents cP.2
              (4 * (decodeSnapBuild blkP.1).catchange_xcnt) path
          else Except.ok ([], cP.2)
        if crcFin (crcComp (crcComp (crcComp (crcComp CRC_INIT
            ((hdrP.1.drop 4).drop 4)) blkP.1) cP.1) gP.1) ≠
            decodeLE ((hdrP.1.drop 4).take 4) then
          Except.error (ReadError.checksumMismatch path
            (crcFin (crcComp (crcComp (crcComp (crcComp CRC_INIT
              ((hdrP.1.drop 4).drop 4)) blkP.1) cP.1) gP.1))
            (decodeLE ((hdrP.1.drop 4).take 4)))
        else
          Except.ok
            { magic := decodeLE (hdrP.1.take 4),
              checksum := decodeLE ((hdrP.1.drop 4).take 4),
              version := decodeLE (((hdrP.1.drop 4).drop 4).take 4),
              length := decodeLE (((hdrP.1.drop 4).drop 4).drop 4),
              builder := decodeSnapBuild blkP.1,
              committed_xip :=
                decodeXids (decodeSnapBuild blkP.1).committed_xcnt cP.1,
              catchange_xip :=
                decodeXids (decodeSnapBuild blkP.1).catchange_xcnt gP.1 }

/-! ## The write path (spec-modelled) -/

/-- Modelled from the spec: §4.3's write path (the body of
`SnapBuildSerialize` in the absent `snapbuild.c`).  Emits, in literal
order, magic, checksum, version, byte length (of everything after the
constant header), the fixed state block, the committed array (sorted
immediately before writing), then the catalog-change array.  The
checksum covers everything after the checksum field itself. -/
def serializePayload (sb : SnapBuild) : List Nat :=
  u32le SNAPBUILD_VERSION ++
    u32le (sizeofSnapBuild + 4 * sb.committed_xip.length +
      4 * sb.catchange_xip.length) ++
    encodeSnapBuild
      { sb with
        committed_xip := sb.committed_xip.insertionSort (fun a b => a ≤ b) } ++
    xidsBytes (sb.committed_xip.insertionSort (fun a b => a ≤ b)) ++
    xidsBytes sb.catchange_xip

/-- Modelled from the spec: the full on-disk image written at a
serialization point. -/
def SnapBuildSerialize (sb : SnapBuild) : List Nat :=
  u32le SNAPBUILD_MAGIC ++ u32le (crc32cOf (serializePayload sb)) ++
    serializePayload sb

/-! ## Reduction of the reader on a well-shaped file -/

theorem bind_ok_eq {e a b : Type} (v : a) (f : a → Except e b) :
    Bind.bind (Except.ok v) f = f v := rfl

theorem pfst {a b : Type} (x : a) (y : b) : (x, y).1 = x := rfl

theorem psnd {a b : Type} (x : a) (y : b) : (x, y).2 = y := rfl

theorem restore_chunk (x y : List Nat) (n : Nat) (path : String)
    (h : x.length = n) :
    SnapBuildRestoreContents (x ++ y) n path = Except.ok (x, y) := by
  unfold SnapBuildRestoreContents
  rw [if_pos (by simp [← h])]
  rw [List.take_left' h, List.drop_left' h]

theorem restore_all (x : List Nat) (n : Nat) (path : String)
    (h : x.length = n) :
    SnapBuildRestoreContents x n path = Except.ok (x, []) := by
  unfold SnapBuildRestoreContents
  rw [if_pos (by omega)]
  rw [← h, List.take_length, List.drop_length]

theorem magic_lt : SNAPBUILD_MAGIC < 4294967296 := by decide

theorem version_lt : SNAPBUILD_VERSION < 4294967296 := by decide

set_option maxHeartbeats 1600000 in
/-- How `ValidateSnapshotFile` behaves on any file with correct magic
and version whose declared array counts match the bytes present: it
reaches the final checksum comparison, computing the CRC over exactly
the version word, the length word, the fixed block and both arrays. -/
theorem validate_wellShaped (path : String) (blk a1 a2 : List Nat)
    (len cks : Nat) (hblk : blk.length = sizeofSnapBuild)
    (ha1 : a1.length = 4 * (decodeSnapBuild blk).committed_xcnt)
    (ha2 : a2.length = 4 * (decodeSnapBuild blk).catchange_xcnt)
    (hcks : cks < 4294967296) (hlen : len < 4294967296) :
    ValidateSnapshotFile
      (OpenResult.ok (u32le SNAPBUILD_MAGIC ++ u32le cks ++
        u32le SNAPBUILD_VERSION ++ u32le len ++ blk ++ a1 ++ a2)) path =
    (if crc32cOf (u32le SNAPBUILD_VERSION ++ u32le len ++ blk ++ a1 ++ a2)
        = cks then
      Except.ok
        { magic := SNAPBUILD_MAGIC, checksum := cks,
          version := SNAPBUILD_VERSION, length := len,
          builder := decodeSnapBuild blk,
          committed_xip :=
            decodeXids (decodeSnapBuild blk).committed_xcnt a1,
          catchange_xip :=
            decodeXids (decodeSnapBuild blk).catchange_xcnt a2 }
    else
      Except.error (ReadError.checksumMismatch path
        (crc32cOf (u32le SNAPBUILD_VERSION ++ u32le len ++ blk ++ a1 ++ a2))
        cks)) := by
  have hgroup :
      u32le SNAPBUILD_MAGIC ++ u32le cks ++ u32le SNAPBUILD_VERSION ++
        u32le len ++ blk ++ a1 ++ a2 =
      (u32le SNAPBUILD_MAGIC ++ (u32le cks ++
        (u32le SNAPBUILD_VERSION ++ u32le len))) ++ (blk ++ (a1 ++ a2)) := by
    simp [List.append_assoc]
  have hcrc : ∀ t1 t2 : List Nat,
      crcComp (crcComp (crcComp (crcComp CRC_INIT
        (u32le SNAPBUILD_VERSION ++ u32le len)) blk) t1) t2 =
      crcComp CRC_INIT
        (u32le SNAPBUILD_VERSION ++ u32le len ++ blk ++ t1 ++ t2) := by
    intro t1 t2
    simp only [List.append_assoc, crcComp_append]
  rw [ValidateSnapshotFile, hgroup]
  rw [restore_chunk _ _ _ _ (by simp [SnapBuildOnDiskConstantSize])]
  rw [bind_ok_eq]
  rw [pfst, psnd]
  rw [List.take_left' (u32le_length _), List.drop_left' (u32le_length _)]
  rw [List.take_left' (u32le_length _), List.drop_left' (u32le_length _)]
  rw [List.take_left' (u32le_length _), List.drop_left' (u32le_length _)]
  rw [decodeLE_u32le _ magic_lt, decodeLE_u32le _ hcks,
    decodeLE_u32le _ version_lt, decodeLE_u32le _ hlen]
  rw [if_neg (by simp), if_neg (by simp)]
  rw [restore_chunk _ _ _ _ hblk]
  rw [bind_ok_eq]
  rw [pfst, psnd]
  by_cases hc1 : 0 < (decodeSnapBuild blk).committed_xcnt
  · rw [if_pos hc1, restore_chunk _ _ _ _ ha1]
    rw [bind_ok_eq]
    beta_reduce
    rw [pfst, psnd]
    by_cases hc2 : 0 < (decodeSnapBuild blk).catchange_xcnt
    · rw [if_pos hc2, restore_all _ _ _ ha2]
      rw [bind_ok_eq]
      beta_reduce
      rw [pfst]
      rw [hcrc a1 a2, crc32cOf]
      by_cases he : crcFin (crcComp CRC_INIT
          (u32le SNAPBUILD_VERSION ++ u32le len ++ blk ++ a1 ++ a2)) = cks
      · rw [if_neg (not_not_intro he), if_pos he]
      · rw [if_pos he, if_neg he]
    · rw [if_neg hc2]
      have ha2nil : a2 = [] := by
        have h0 : (decodeSnapBuild blk).catchange_xcnt = 0 := by omega
        rw [h0] at ha2
        exact List.eq_nil_of_length_eq_zero (by omega)
      subst ha2nil
      rw [bind_ok_eq]
      beta_reduce
      rw [pfst]
      rw [hcrc a1 [], crc32cOf]
      by_cases he : crcFin (crcComp CRC_INIT
          (u32le SNAPBUILD_VERSION ++ u32le len ++ blk ++ a1 ++ [])) = cks
      · rw [if_neg (not_not_intro he), if_pos he]
      · rw [if_pos he, if_neg he]
  · rw [if_neg hc1]
    have ha1nil : a1 = [] := by
      have h0 : (decodeSnapBuild blk).committed_xcnt = 0 := by omega
      rw [h0] at ha1
      exact List.eq_nil_of_length_eq_zero (by omega)
    subst ha1nil
    rw [bind_ok_eq]
    beta_reduce
    rw [pfst, psnd]
    by_cases hc2 : 0 < (decodeSnapBuild blk).catchange_xcnt
    · rw [if_pos hc2]
      rw [show ([] : List Nat) ++ a2 = a2 from rfl]
      rw [restore_all _ _ _ ha2]
      rw [bind_ok_eq]
      beta_reduce
      rw [pfst]
      rw [hcrc [] a2, crc32cOf]
      by_cases he : crcFin (crcComp CRC_INIT
          (u32le SNAPBUILD_VERSION ++ u32le len ++ blk ++ [] ++ a2)) = cks
      · rw [if_neg (not_not_intro he), if_pos he]
      · rw [if_pos he, if_neg he]
    · rw [if_neg hc2]
      have ha2nil : a2 = [] := by
        have h0 : (decodeSnapBuild blk).catchange_xcnt = 0 := by omega
        rw [h0] at ha2
        exact List.eq_nil_of_length_eq_zero (by omega)
      subst ha2nil
      rw [bind_ok_eq]
      beta_reduce
      rw [pfst]
      rw [hcrc [] [], crc32cOf]
      by_cases he : crcFin (crcComp CRC_INIT
          (u32le SNAPBUILD_VERSION ++ u32le len ++ blk ++ [] ++ [])) = cks
      · rw [if_neg (not_not_intro he), if_pos he]
      · rw [if_pos he, if_neg he]

/-- A wrong magic number is rejected at once, whatever the checksum
field or the rest of the file holds. -/
theorem validate_wrongMagic (path : String) (m c v l : Nat)
    (tail : List Nat) (hm : m < 4294967296) (hne : m ≠ SNAPBUILD_MAGIC) :
    ValidateSnapshotFile
      (OpenResult.ok (u32le m ++ u32le c ++ u32le v ++ u32le l ++ tail))
      path =
    Except.error (ReadError.wrongMagic path m SNAPBUILD_MAGIC) := by
  have hgroup :
      u32le m ++ u32le c ++ u32le v ++ u32le l ++ tail =
      (u32le m ++ (u32le c ++ (u32le v ++ u32le l))) ++ tail := by
    simp [List.append_assoc]
  rw [ValidateSnapshotFile, hgroup]
  rw [restore_chunk _ _ _ _ (by simp [SnapBuildOnDiskConstantSize])]
  rw [bind_ok_eq]
  rw [pfst]
  rw [List.take_left' (u32le_length _)]
  rw [decodeLE_u32le _ hm]
  rw [if_pos hne]

/-- With the right magic, a wrong version is rejected next, again
independently of the checksum field. -/
theorem validate_wrongVersion (path : String) (c v l : Nat)
    (tail : List Nat) (hv : v < 4294967296) (hne : v ≠ SNAPBUILD_VERSION) :
    ValidateSnapshotFile
      (OpenResult.ok (u32le SNAPBUILD_MAGIC ++ u32le c ++ u32le v ++
        u32le l ++ tail)) path =
    Except.error (ReadError.wrongVersion path v SNAPBUILD_VERSION) := by
  have hgroup :
      u32le SNAPBUILD_MAGIC ++ u32le c ++ u32le v ++ u32le l ++ tail =
      (u32le SNAPBUILD_MAGIC ++ (u32le c ++ (u32le v ++ u32le l))) ++
        tail := by
    simp [List.append_assoc]
  rw [ValidateSnapshotFile, hgroup]
  rw [restore_chunk _ _ _ _ (by simp [SnapBuildOnDiskConstantSize])]
  rw [bind_ok_eq]
  rw [pfst]
  rw [List.take_left' (u32le_length _), List.drop_left' (u32le_length _)]
  rw [List.drop_left' (u32le_length _)]
  rw [List.take_left' (u32le_length _)]
  rw [decodeLE_u32le _ magic_lt, decodeLE_u32le _ hv]
  rw [if_neg (by simp), if_pos hne]

theorem crcComp_lt_init (bs : List Nat) : crcComp CRC_INIT bs < 4294967296 :=
  crcComp_lt bs (by decide)

theorem crc32cOf_lt (bs : List Nat) : crc32cOf bs < 4294967296 := by
  unfold crc32cOf crcFin
  have h1 : crcComp CRC_INIT bs < 2 ^ 32 := by
    have := crcComp_lt_init bs
    omega
  have h2 : (0xFFFFFFFF : Nat) < 2 ^ 32 := by decide
  have := Nat.xor_lt_two_pow h1 h2
  omega

theorem decodeXids_xidsBytes_exact (xs : List Nat)
    (h : ∀ x ∈ xs, x < 4294967296) :
    decodeXids xs.length (xidsBytes xs) = xs := by
  have := decodeXids_xidsBytes xs [] h
  simpa using this

theorem decodeSnapBuild_encodeSnapBuild_exact (sb : SnapBuild)
    (hv : sb.valid) :
    decodeSnapBuild (encodeSnapBuild sb) = sb.fields := by
  have := decodeSnapBuild_encodeSnapBuild sb [] hv
  simpa using this

/-- Sorting the committed array preserves validity. -/
theorem valid_sortCommitted (sb : SnapBuild) (hv : sb.valid) :
    SnapBuild.valid
      { sb with
        committed_xip :=
          sb.committed_xip.insertionSort (fun a b => a ≤ b) } := by
  obtain ⟨h1, h2, h3, h4, h5, h6, h7, h8, h9, h10, h11, h12, h13⟩ := hv
  have hperm := List.perm_insertionSort (fun a b => a ≤ b) sb.committed_xip
  refine ⟨h1, h2, h3, h4, h5, h6, h7, h8, ?_, ?_, h11, h12, h13⟩
  · rw [hperm.length_eq]
    exact h9
  · intro x hx
    exact h10 x (hperm.mem_iff.mp hx)

/-- The reader restores exactly what the writer wrote: all scalar
fields, the committed array (as sorted by the writer) and the
catalog-change array. -/
theorem validate_serialize (sb : SnapBuild) (path : String)
    (hv : sb.valid) :
    ValidateSnapshotFile (OpenResult.ok (SnapBuildSerialize sb)) path =
    Except.ok
      { magic := SNAPBUILD_MAGIC,
        checksum := crc32cOf (serializePayload sb),
        version := SNAPBUILD_VERSION,
        length := sizeofSnapBuild + 4 * sb.committed_xip.length +
          4 * sb.catchange_xip.length,
        builder := SnapBuild.fields
          { sb with
            committed_xip :=
              sb.committed_xip.insertionSort (fun a b => a ≤ b) },
        committed_xip := sb.committed_xip.insertionSort (fun a b => a ≤ b),
        catchange_xip := sb.catchange_xip } := by
  obtain ⟨h1, h2, h3, h4, h5, h6, h7, h8, h9, h10, h11, h12, h13⟩ := hv
  have hperm := List.perm_insertionSort (fun a b => a ≤ b) sb.committed_xip
  have hv2 := valid_sortCommitted sb
    ⟨h1, h2, h3, h4, h5, h6, h7, h8, h9, h10, h11, h12, h13⟩
  have hdec :
      decodeSnapBuild (encodeSnapBuild
        { sb with
          committed_xip :=
            sb.committed_xip.insertionSort (fun a b => a ≤ b) }) =
      SnapBuild.fields
        { sb with
          committed_xip :=
            sb.committed_xip.insertionSort (fun a b => a ≤ b) } :=
    decodeSnapBuild_encodeSnapBuild_exact _ hv2
  have hshape :
      SnapBuildSerialize sb =
      u32le SNAPBUILD_MAGIC ++ u32le (crc32cOf (serializePayload sb)) ++
        u32le SNAPBUILD_VERSION ++
        u32le (sizeofSnapBuild + 4 * sb.committed_xip.length +
          4 * sb.catchange_xip.length) ++
        encodeSnapBuild
          { sb with
            committed_xip :=
              sb.committed_xip.insertionSort (fun a b => a ≤ b) } ++
        xidsBytes (sb.committed_xip.insertionSort (fun a b => a ≤ b)) ++
        xidsBytes sb.catchange_xip := by
    unfold SnapBuildSerialize serializePayload
    simp [List.append_assoc]
  rw [hshape]
  rw [validate_wellShaped path _ _ _ _ _
    (encodeSnapBuild_length _)
    (by rw [hdec]
        unfold SnapBuild.fields
        rw [xidsBytes_length, hperm.length_eq])
    (by rw [hdec]
        unfold SnapBuild.fields
        rw [xidsBytes_length])
    (crc32cOf_lt _) (by unfold sizeofSnapBuild; omega)]
  rw [if_pos (by unfold serializePayload crc32cOf; rfl)]
  rw [hdec]
  have hcx :
      decodeXids (SnapBuild.fields
        { sb with
          committed_xip :=
            sb.committed_xip.insertionSort (fun a b => a ≤ b) }).committed_xcnt
        (xidsBytes (sb.committed_xip.insertionSort (fun a b => a ≤ b))) =
      sb.committed_xip.insertionSort (fun a b => a ≤ b) := by
    unfold SnapBuild.fields
    exact decodeXids_xidsBytes_exact _
      (fun x hx => h10 x (hperm.mem_iff.mp hx))
  have hgx :
      decodeXids (SnapBuild.fields
        { sb with
          committed_xip :=
            sb.committed_xip.insertionSort (fun a b => a ≤ b) }).catchange_xcnt
        (xidsBytes sb.catchange_xip) = sb.catchange_xip := by
    unfold SnapBuild.fields
    exact decodeXids_xidsBytes_exact _ h12
  rw [hcx, hgx]

/-! ## The restart read path (spec-modelled) and its equivalence

`SnapBuildRestore` is the builder's restart reader (declared in
`snapbuild.h`; its body lives in the absent `snapbuild.c`).  The spec
(§4.3 read path, steps 1-8) requires it to perform identically to the
inspection tool's reader.  It is modelled here from the spec's words,
deliberately in a different shape from `ValidateSnapshotFile`:
absolute-offset reads against the whole file and a single final
checksum over the contiguous checksummed region, instead of streamed
chunk consumption with an accumulated checksum. -/

/-- The error classes of §7: missing file, other I/O failure,
truncation, bad magic, bad version, bad checksum. -/
inductive ReadErrorClass where
  | notFound
  | ioFailure
  | truncated
  | badMagic
  | badVersion
  | badChecksum
deriving DecidableEq

def ReadError.cls : ReadError → ReadErrorClass
  | .fileDoesNotExist _ => .notFound
  | .couldNotOpen _ _ => .ioFailure
  | .couldNotRead _ => .truncated
  | .wrongMagic _ _ _ => .badMagic
  | .wrongVersion _ _ _ => .badVersion
  | .checksumMismatch _ _ _ => .badChecksum

/-- Read exactly `n` bytes at absolute offset `off`, or fail as a
truncated file. -/
def readExact (bytes : List Nat) (off n : Nat) (path : String) :
    Except ReadError (List Nat) :=
  if off + n ≤ bytes.length then Except.ok ((bytes.drop off).take n)
  else Except.error (ReadError.couldNotRead path)

theorem bind_error_eq {e a b : Type} (err : e) (f : a → Except e b) :
    Bind.bind (Except.error err) f = Except.error err := rfl

theorem restoreContents_ok (l : List Nat) (n : Nat) (path : String)
    (h : n ≤ l.length) :
    SnapBuildRestoreContents l n path = Except.ok (l.take n, l.drop n) := by
  unfold SnapBuildRestoreContents
  rw [if_pos h]

theorem restoreContents_fail (l : List Nat) (n : Nat) (path : String)
    (h : l.length < n) :
    SnapBuildRestoreContents l n path =
      Except.error (ReadError.couldNotRead path) := by
  unfold SnapBuildRestoreContents
  rw [if_neg (by omega)]

theorem readExact_ok (bytes : List Nat) (off n : Nat) (path : String)
    (h : off + n ≤ bytes.length) :
    readExact bytes off n path = Except.ok ((bytes.drop off).take n) := by
  unfold readExact
  rw [if_pos h]

theorem readExact_fail (bytes : List Nat) (off n : Nat) (path : String)
    (h : bytes.length < off + n) :
    readExact bytes off n path =
      Except.error (ReadError.couldNotRead path) := by
  unfold readExact
  rw [if_neg (by omega)]

/-- Modelled from the spec: the restart restore path of §4.3 (steps
1-8): open (missing file is a distinct user-visible error), read the
constant header, reject bad magic then bad version, read the fixed
state block and both arrays (exactly as many ids as the block
declares), compare the checksum accumulated over everything after the
checksum field, and return the decoded state. -/
def SnapBuildRestore (fd : OpenResult) (path : String) :
    Except ReadError SnapBuildOnDisk :=
  match fd with
  | .missing => Except.error (ReadError.fileDoesNotExist path)
  | .ioError e => Except.error (ReadError.couldNotOpen path e)
  | .ok bytes => do
      let hdr ← readExact bytes 0 SnapBuildOnDiskConstantSize path
      if decodeLE (hdr.take 4) ≠ SNAPBUILD_MAGIC then
        Except.error (ReadError.wrongMagic path (decodeLE (hdr.take 4))
          SNAPBUILD_MAGIC)
      else if decodeLE ((hdr.drop 8).take 4) ≠ SNAPBUILD_VERSION then
        Except.error (ReadError.wrongVersion path
          (decodeLE ((hdr.drop 8).take 4)) SNAPBUILD_VERSION)
      else do
        let blk ← readExact bytes 16 sizeofSnapBuild path
        let cB ←
          if 0 < (decodeSnapBuild blk).committed_xcnt then
            readExact bytes (16 + sizeofSnapBuild)
              (4 * (decodeSnapBuild blk).committed_xcnt) path
          else Except.ok []
        let gB ←
          if 0 < (decodeSnapBuild blk).catchange_xcnt then
            readExact bytes
              (16 + sizeofSnapBuild +
                4 * (decodeSnapBuild blk).committed_xcnt)
              (4 * (decodeSnapBuild blk).catchange_xcnt) path
          else Except.ok []
        if crc32cOf (hdr.drop 8 ++ blk ++ cB ++ gB) ≠
            decodeLE ((hdr.drop 4).take 4) then
          Except.error (ReadError.checksumMismatch path
            (crc32cOf (hdr.drop 8 ++ blk ++ cB ++ gB))
            (decodeLE ((hdr.drop 4).take 4)))
        else
          Except.ok
            { magic := decodeLE (hdr.take 4),
              checksum := decodeLE ((hdr.drop 4).take 4),
              version := decodeLE ((hdr.drop 8).take 4),
              length := decodeLE (hdr.drop 12),
              builder := decodeSnapBuild blk,
              committed_xip :=
                decodeXids (decodeSnapBuild blk).committed_xcnt cB,
              catchange_xip :=
                decodeXids (decodeSnapBuild blk).catchange_xcnt gB }

theorem crc32cOf_split (a b c d : List Nat) :
    crc32cOf (a ++ b ++ c ++ d) =
    crcFin (crcComp (crcComp (crcComp (crcComp CRC_INIT a) b) c) d) := by
  rw [crc32cOf, crcComp_append, crcComp_append, crcComp_append]

/-- The spec-modelled restart reader and the inspection tool's reader
are the same function: every file is accepted or rejected identically,
with identical results and identical errors. -/
theorem restore_eq_validate (fd : OpenResult) (path : String) :
    SnapBuildRestore fd path = ValidateSnapshotFile fd path := by
  cases fd with
  | missing => rfl
  | ioError e => rfl
  | ok bytes =>
      rw [SnapBuildRestore, ValidateSnapshotFile]
      rw [show SnapBuildOnDiskConstantSize = 16 from rfl,
        show sizeofSnapBuild = 111 from rfl]
      by_cases h16 : 16 ≤ bytes.length
      · rw [restoreContents_ok _ _ _ h16, readExact_ok _ _ _ _ (by omega)]
        repeat rw [bind_ok_eq]
        rw [List.drop_zero]
        repeat rw [pfst]
        repeat rw [psnd]
        simp only [List.drop_drop]
        by_cases hm : decodeLE ((bytes.take 16).take 4) ≠ SNAPBUILD_MAGIC
        · rw [if_pos hm]
          try rw [if_pos hm]
        · rw [if_neg hm]
          try rw [if_neg hm]
          by_cases hv :
              decodeLE (((bytes.take 16).drop 8).take 4) ≠ SNAPBUILD_VERSION
          · rw [if_pos hv]
            try rw [if_pos hv]
          · rw [if_neg hv]
            try rw [if_neg hv]
            by_cases hb : 111 ≤ (bytes.drop 16).length
            · rw [restoreContents_ok _ _ _ hb,
                readExact_ok _ _ _ _ (by simp at hb ⊢; omega)]
              repeat rw [bind_ok_eq]
              repeat rw [pfst]
              repeat rw [psnd]
              simp only [List.drop_drop]
              by_cases hc1 : 0 <
                  (decodeSnapBuild ((bytes.drop 16).take 111)).committed_xcnt
              · rw [if_pos hc1]
                try rw [if_pos hc1]
                by_cases hf1 : 4 *
                    (decodeSnapBuild
                      ((bytes.drop 16).take 111)).committed_xcnt ≤
                    (bytes.drop (111 + 16)).length
                · rw [restoreContents_ok _ _ _ hf1,
                    readExact_ok _ _ _ _ (by simp at hf1 ⊢; omega)]
                  repeat rw [bind_ok_eq]
                  repeat rw [pfst]
                  repeat rw [psnd]
                  simp only [List.drop_drop]
                  by_cases hc2 : 0 <
                      (decodeSnapBuild
                        ((bytes.drop 16).take 111)).catchange_xcnt
                  · rw [if_pos hc2]
                    try rw [if_pos hc2]
                    by_cases hf2 : 4 *
                        (decodeSnapBuild
                          ((bytes.drop 16).take 111)).catchange_xcnt ≤
                        (bytes.drop (111 + 16 + 4 * (decodeSnapBuild
                          ((bytes.drop 16).take 111)).committed_xcnt)).length
                    · rw [restoreContents_ok _ _ _ hf2,
                        readExact_ok _ _ _ _ (by simp at hf2 ⊢; omega)]
                      repeat rw [bind_ok_eq]
                      repeat rw [pfst]
                      rw [crc32cOf_split]
                    · rw [restoreContents_fail _ _ _ (by simp at hf2 ⊢; omega),
                        readExact_fail _ _ _ _ (by simp at hf2 ⊢; omega)]
                      repeat rw [bind_error_eq]
                  · rw [if_neg hc2]
                    try rw [if_neg hc2]
                    rw [crc32cOf_split]
                · rw [restoreContents_fail _ _ _ (by simp at hf1 ⊢; omega),
                    readExact_fail _ _ _ _ (by simp at hf1 ⊢; omega)]
                  repeat rw [bind_error_eq]
              · rw [if_neg hc1]
                try rw [if_neg hc1]
                try simp only [List.drop_drop]
                by_cases hc2 : 0 <
                    (decodeSnapBuild
                      ((bytes.drop 16).take 111)).catchange_xcnt
                · rw [if_pos hc2]
                  try rw [if_pos hc2]
                  have h0 : (decodeSnapBuild
                      ((bytes.drop 16).take 111)).committed_xcnt = 0 := by
                    omega
                  by_cases hf2 : 4 *
                      (decodeSnapBuild
                        ((bytes.drop 16).take 111)).catchange_xcnt ≤
                      (bytes.drop (111 + 16)).length
                  · rw [h0]
                    rw [show (111 : Nat) + 16 + 4 * 0 = 111 + 16 from rfl]
                    rw [restoreContents_ok _ _ _ hf2,
                      readExact_ok _ _ _ _ (by simp at hf2 ⊢; omega)]
                    repeat rw [bind_ok_eq]
                    repeat rw [pfst]
                    rw [crc32cOf_split]
                  · rw [h0]
                    rw [show (111 : Nat) + 16 + 4 * 0 = 111 + 16 from rfl]
                    rw [restoreContents_fail _ _ _ (by simp at hf2 ⊢; omega),
                      readExact_fail _ _ _ _ (by simp at hf2 ⊢; omega)]
                    repeat rw [bind_error_eq]
                · rw [if_neg hc2]
                  try rw [if_neg hc2]
                  rw [crc32cOf_split]
            · rw [restoreContents_fail _ _ _ (by simp at hb ⊢; omega),
                readExact_fail _ _ _ _ (by simp at hb ⊢; omega)]
              repeat rw [bind_error_eq]
      · rw [restoreContents_fail _ _ _ (by omega),
          readExact_fail _ _ _ _ (by omega)]
        repeat rw [bind_error_eq]

/-! ## The inspection functions -/

/-- `pg_get_logical_snapshot_meta` (`pg_logicalsnapinspect.c`, lines
133-169): validates the entire file through `ValidateSnapshotFile`,
then surfaces only the header metadata triple
(magic, checksum, version). -/
def pg_get_logical_snapshot_meta (fd : OpenResult) (path : String) :
    Except ReadError (Nat × Nat × Nat) :=
  match ValidateSnapshotFile fd path with
  | Except.error e => Except.error e
  | Except.ok ondisk =>
      Except.ok (ondisk.magic, ondisk.checksum, ondisk.version)

/-! ## The snapshot-builder state machine (spec-modelled)

The bodies of `SnapBuildCommitTxn`, `SnapBuildProcessNewCid`,
`SnapBuildProcessRunningXacts` and `AllocateSnapshotBuilder` live in
the absent `snapbuild.c`; the transition system below is modelled from
§4.2 of the spec (per-event behavior and the four-state
progression). -/

/-- An inbound event from the WAL feed (§6): a commit with its
sub-transaction list and modified-catalog flag, a new-command-id
record, or a running-transactions probe. -/
inductive Event where
  | commit (xid : Nat) (lsn : Nat) (subxids : List Nat)
      (catalogChanged : Bool)
  | newCid (xid : Nat) (lsn : Nat)
  | runningXacts (lsn : Nat) (oldestRunningXid : Nat) (nextXid : Nat)
      (running : List Nat)
deriving DecidableEq

def eventLsn : Event → Nat
  | .commit _ lsn _ _ => lsn
  | .newCid _ lsn => lsn
  | .runningXacts lsn _ _ _ => lsn

/-- Modelled from the spec: one step of the builder per event (§4.2).
Commit: record the transaction (and catalog-modifying
sub-transactions, recognised through the restored catalog-change set)
while `includes_all_transactions` or the catalog flag holds, advance
`xmax`, and leave `FULL_SNAPSHOT` for `CONSISTENT` once the recorded
`next_phase_at` horizon is cleared (whereupon the committed set stops
including non-catalog transactions, forever).  New-command-id: marks
catalog impact in the reorder-buffer collaborator, which is outside
this core, so no tracked field changes.  Running-xacts probe: ignored
once `CONSISTENT`; in `FULL_SNAPSHOT` it drains the
running-at-transition horizon; before that it either establishes the
full snapshot (no running transactions and the initial horizon
satisfied — fixing `xmin` and `xmax` from the probe) or records the
probe's next transaction id as the next-phase threshold. -/
def stepEvent (sb : SnapBuild) : Event → SnapBuild
  | .commit xid _lsn subxids catalogChanged =>
      let nowConsistent : Prop :=
        sb.state = SnapBuildState.FULL_SNAPSHOT ∧ sb.next_phase_at ≤ xid
      { sb with
        committed_xip :=
          if sb.committed_includes_all_transactions || catalogChanged then
            sb.committed_xip ++ xid :: subxids.filter
              (fun s => sb.committed_includes_all_transactions ||
                catalogChanged || decide (s ∈ sb.catchange_xip))
          else sb.committed_xip
        xmax := max sb.xmax (xid + 1)
        state :=
          if nowConsistent then SnapBuildState.CONSISTENT else sb.state
        next_phase_at := if nowConsistent then 0 else sb.next_phase_at
        committed_includes_all_transactions :=
          if nowConsistent then false
          else sb.committed_includes_all_transactions }
  | .newCid _ _ => sb
  | .runningXacts _lsn oldest next running =>
      match sb.state with
      | .CONSISTENT => sb
      | .FULL_SNAPSHOT =>
          if ∀ r ∈ running, sb.next_phase_at ≤ r then
            { sb with
              state := SnapBuildState.CONSISTENT
              next_phase_at := 0
              committed_includes_all_transactions := false }
          else sb
      | _ =>
          if running = [] ∧ sb.initial_xmin_horizon ≤ oldest then
            { sb with
              state := SnapBuildState.FULL_SNAPSHOT
              xmin := oldest
              xmax := next
              next_phase_at := 0 }
          else
            { sb with
              state := SnapBuildState.BUILDING_SNAPSHOT
              next_phase_at := next }

def runEvents (sb : SnapBuild) (es : List Event) : SnapBuild :=
  es.foldl stepEvent sb

/-- Contract on one inbound event (§4.2 failure semantics, §6): log
positions never decrease, a commit is never below the current `xmin`,
and a probe's horizons never regress. -/
def ValidEvent (prevLsn : Nat) (sb : SnapBuild) : Event → Prop
  | .commit xid lsn _ _ => prevLsn ≤ lsn ∧ sb.xmin ≤ xid
  | .newCid _ lsn => prevLsn ≤ lsn
  | .runningXacts lsn oldest next _ =>
      prevLsn ≤ lsn ∧ sb.xmin ≤ oldest ∧ oldest ≤ next ∧ sb.xmax ≤ next

def ValidRun (prevLsn : Nat) (sb : SnapBuild) : List Event → Prop
  | [] => True
  | e :: es =>
      ValidEvent prevLsn sb e ∧ ValidRun (eventLsn e) (stepEvent sb e) es

/-- Log position reached after a run. -/
def lsnAfter (prevLsn : Nat) (es : List Event) : Nat :=
  es.foldl (fun _ e => eventLsn e) prevLsn

/-- Modelled from the spec: the decide-visibility query of §4.2
(`SnapBuildXactNeedsSkip` combined with the committed-set test of
`SnapBuildProcessChange`): skip when the transaction started before
`start_decoding_at`, or the builder has not reached `FULL_SNAPSHOT`,
or — with catalog-only filtering in the `CONSISTENT` phase — the
transaction is not in the committed set. -/
def SnapBuildXactNeedsSkip (sb : SnapBuild) (txnStartLsn : Nat)
    (xid : Nat) : Bool :=
  decide (txnStartLsn < sb.start_decoding_at) ||
  decide (sb.state.idx < SnapBuildState.FULL_SNAPSHOT.idx) ||
  (!sb.committed_includes_all_transactions &&
    decide (sb.state = SnapBuildState.CONSISTENT) &&
    !(decide (xid ∈ sb.committed_xip)))

/-- Does an event report the commit of `xid` (as top-level or
sub-transaction)? -/
def commitMentions (xid : Nat) : Event → Prop
  | .commit cx _ subs _ => cx = xid ∨ xid ∈ subs
  | _ => False

/-! ## Transaction-set purge (spec-modelled) -/

/-- Modelled from the spec: `SnapBuildPurgeOlderTxn` (absent
`snapbuild.c`) drops every catalog-change entry below the threshold
(§4.1 `purge(older_than_xid)`). -/
def SnapBuildPurgeOlderTxn (older_than_xid : Nat) (xip : List Nat) :
    List Nat :=
  xip.filter (fun x => older_than_xid ≤ x)

/-! ## Snapshot export (spec-modelled) -/

/-- The externally consumed snapshot view (§4.4): the horizon pair and
the visibility id list. -/
structure Snapshot where
  snapXmin : Nat
  snapXmax : Nat
  snapXip : List Nat
deriving DecidableEq

inductive ExportError where
  | alreadyExported
deriving DecidableEq

/-- Modelled from the spec: §4.4 builds a snapshot from current builder
state — the horizon ids plus the committed set, sorted for the
consumers' binary search. -/
def SnapBuildInitialSnapshot (sb : SnapBuild) : Snapshot :=
  { snapXmin := sb.xmin
    snapXmax := sb.xmax
    snapXip := sb.committed_xip.insertionSort (fun a b => a ≤ b) }

/-- Modelled from the spec: `SnapBuildExportSnapshot` — at most one
snapshot may be exported at a time; a second export while one is
active fails with an already-exported error and leaves the active
export untouched.  The exported slot is an explicit state value (§9:
reimplement the process-wide pointer as owned state). -/
def SnapBuildExportSnapshot (sb : SnapBuild)
    (exported : Option Snapshot) :
    Except ExportError Snapshot × Option Snapshot :=
  match exported with
  | some s => (Except.error ExportError.alreadyExported, some s)
  | none =>
      (Except.ok (SnapBuildInitialSnapshot sb),
        some (SnapBuildInitialSnapshot sb))

/-- Modelled from the spec: `SnapBuildClearExportedSnapshot` releases
the active export. -/
def SnapBuildClearExportedSnapshot (_exported : Option Snapshot) :
    Option Snapshot :=
  none

/-- Modelled from the spec: `AllocateSnapshotBuilder` — fresh builder
in the initial phase, with an empty committed set that still records
all transactions, and the construction-time mode flags. -/
def AllocateSnapshotBuilder (xmin_horizon : Nat) (start_lsn : Nat)
    (need_full_snapshot : Bool) (in_slot_creation : Bool)
    (two_phase_at : Nat) : SnapBuild :=
  { state := SnapBuildState.START
    xmin := 0
    xmax := 0
    start_decoding_at := start_lsn
    two_phase_at := two_phase_at
    initial_xmin_horizon := xmin_horizon
    building_full_snapshot := need_full_snapshot
    in_slot_creation := in_slot_creation
    last_serialized_snapshot := 0
    next_phase_at := 0
    committed_xcnt_space := 0
    committed_includes_all_transactions := true
    committed_xip := []
    catchange_xip := [] }

/-- One valid event moves every monotone field forward and preserves
the horizon invariant. -/
theorem stepEvent_mono (prevLsn : Nat) (sb : SnapBuild) (e : Event)
    (hv : ValidEvent prevLsn sb e) (hinv : sb.xmin ≤ sb.xmax) :
    sb.xmin ≤ (stepEvent sb e).xmin ∧
    sb.xmax ≤ (stepEvent sb e).xmax ∧
    sb.start_decoding_at ≤ (stepEvent sb e).start_decoding_at ∧
    sb.state.idx ≤ (stepEvent sb e).state.idx ∧
    (stepEvent sb e).xmin ≤ (stepEvent sb e).xmax := by
  cases e with
  | commit xid lsn subxids catalogChanged =>
      simp only [stepEvent]
      refine ⟨le_refl _, ?_, le_refl _, ?_, ?_⟩
      · exact le_max_left _ _
      · split
        · next h =>
            rw [h.1]
            simp [SnapBuildState.idx]
        · exact le_refl _
      · have := le_max_left sb.xmax (xid + 1)
        omega
  | newCid xid lsn =>
      exact ⟨le_refl _, le_refl _, le_refl _, le_refl _, hinv⟩
  | runningXacts lsn oldest next running =>
      obtain ⟨_, hxmin, hON, hxmax⟩ := hv
      cases hst : sb.state with
      | CONSISTENT =>
          simp only [stepEvent, hst]
          exact ⟨le_refl _, le_refl _, le_refl _, le_refl _, hinv⟩
      | FULL_SNAPSHOT =>
          simp only [stepEvent, hst]
          split
          · refine ⟨le_refl _, le_refl _, le_refl _, ?_, hinv⟩
            simp [SnapBuildState.idx]
          · refine ⟨le_refl _, le_refl _, le_refl _, ?_, hinv⟩
            rw [hst]
      | START =>
          simp only [stepEvent, hst]
          split
          · refine ⟨hxmin, hxmax, le_refl _, ?_, hON⟩
            simp [SnapBuildState.idx]
          · refine ⟨le_refl _, le_refl _, le_refl _, ?_, hinv⟩
            simp [SnapBuildState.idx]
      | BUILDING_SNAPSHOT =>
          simp only [stepEvent, hst]
          split
          · refine ⟨hxmin, hxmax, le_refl _, ?_, hON⟩
            simp [SnapBuildState.idx]
          · exact ⟨le_refl _, le_refl _, le_refl _, le_refl _, hinv⟩

/-- Monotonicity and the `xmin ≤ xmax` invariant extend over any valid
run. -/
theorem runEvents_mono (es : List Event) (prevLsn : Nat) (sb : SnapBuild)
    (hv : ValidRun prevLsn sb es) (hinv : sb.xmin ≤ sb.xmax) :
    sb.xmin ≤ (runEvents sb es).xmin ∧
    sb.xmax ≤ (runEvents sb es).xmax ∧
    sb.start_decoding_at ≤ (runEvents sb es).start_decoding_at ∧
    sb.state.idx ≤ (runEvents sb es).state.idx ∧
    (runEvents sb es).xmin ≤ (runEvents sb es).xmax := by
  induction es generalizing prevLsn sb with
  | nil => exact ⟨le_refl _, le_refl _, le_refl _, le_refl _, hinv⟩
  | cons e es ih =>
      obtain ⟨hve, hvr⟩ := hv
      have hstep := stepEvent_mono prevLsn sb e hve hinv
      have hrest := ih (eventLsn e) (stepEvent sb e) hvr hstep.2.2.2.2
      simp only [runEvents, List.foldl_cons] at hrest ⊢
      exact ⟨le_trans hstep.1 hrest.1, le_trans hstep.2.1 hrest.2.1,
        le_trans hstep.2.2.1 hrest.2.2.1,
        le_trans hstep.2.2.2.1 hrest.2.2.2.1, hrest.2.2.2.2⟩

theorem ValidRun_append (prevLsn : Nat) (sb : SnapBuild)
    (es1 es2 : List Event) (h : ValidRun prevLsn sb (es1 ++ es2)) :
    ValidRun prevLsn sb es1 ∧
    ValidRun (lsnAfter prevLsn es1) (runEvents sb es1) es2 := by
  induction es1 generalizing prevLsn sb with
  | nil => exact ⟨trivial, h⟩
  | cons e es ih =>
      obtain ⟨hve, hvr⟩ := h
      have := ih (eventLsn e) (stepEvent sb e) hvr
      exact ⟨⟨hve, this.1⟩, this.2⟩

theorem runEvents_append (sb : SnapBuild) (es1 es2 : List Event) :
    runEvents sb (es1 ++ es2) = runEvents (runEvents sb es1) es2 := by
  simp [runEvents]

/-- The committed set never mentions a transaction whose commit was
never delivered. -/
theorem not_committed_of_no_commit (es : List Event) (sb : SnapBuild)
    (xid : Nat) (h0 : xid ∉ sb.committed_xip)
    (hne : ∀ e ∈ es, ¬ commitMentions xid e) :
    xid ∉ (runEvents sb es).committed_xip := by
  induction es generalizing sb with
  | nil => exact h0
  | cons e es ih =>
      simp only [runEvents, List.foldl_cons]
      refine ih (stepEvent sb e) ?_ (fun e2 he2 => hne e2 (by simp [he2]))
      have hnem := hne e (by simp)
      cases e with
      | commit cx lsn subs flag =>
          simp only [commitMentions] at hnem
          simp only [stepEvent]
          split
          · intro hmem
            rw [List.mem_append] at hmem
            rcases hmem with hmem | hmem
            · exact h0 hmem
            · rw [List.mem_cons] at hmem
              rcases hmem with hmem | hmem
              · exact hnem (Or.inl hmem.symm)
              · exact hnem (Or.inr (List.mem_of_mem_filter hmem))
          · exact h0
      | newCid _ _ => exact h0
      | runningXacts lsn oldest next running =>
          simp only [stepEvent]
          cases sb.state <;> simp only [] <;> first
            | exact h0
            | (split <;> exact h0)

/-- Once `CONSISTENT`, the committed set is catalog-only: the
`includes_all_transactions` flag is false and stays false. -/
theorem consistent_catalogOnly (es : List Event) (sb : SnapBuild)
    (h0 : sb.state = SnapBuildState.CONSISTENT →
      sb.committed_includes_all_transactions = false) :
    (runEvents sb es).state = SnapBuildState.CONSISTENT →
      (runEvents sb es).committed_includes_all_transactions = false := by
  induction es generalizing sb with
  | nil => exact h0
  | cons e es ih =>
      simp only [runEvents, List.foldl_cons]
      refine ih (stepEvent sb e) ?_
      cases e with
      | commit cx lsn subs flag =>
          simp only [stepEvent]
          split
          · intro _
            rfl
          · next hnc =>
              intro hc
              exact h0 hc
      | newCid _ _ => exact h0
      | runningXacts lsn oldest next running =>
          cases hst : sb.state with
          | CONSISTENT =>
              simp only [stepEvent, hst]
              intro _
              exact h0 hst
          | FULL_SNAPSHOT =>
              simp only [stepEvent, hst]
              split
              · intro _
                rfl
              · intro hc
                rw [hst] at hc
                exact absurd hc (by decide)
          | START =>
              simp only [stepEvent, hst]
              split
              · intro hc
                simp at hc
              · intro hc
                simp at hc
          | BUILDING_SNAPSHOT =>
              simp only [stepEvent, hst]
              split
              · intro hc
                simp at hc
              · intro hc
                simp at hc

/-! ## The claims -/

/-- Claim C1: the on-disk snapshot read path behaves identically
whether invoked by the builder's restart restore or by the independent
inspection tool: for every file contents, both readers accept exactly
the same files, and on a rejected file both report the same class of
error (same magic, version, and checksum corruption errors). -/
theorem claim_C1 (fd : OpenResult) (path : String) :
    ((∃ r, SnapBuildRestore fd path = Except.ok r) ↔
      (∃ r, ValidateSnapshotFile fd path = Except.ok r)) ∧
    (∀ e1 e2, SnapBuildRestore fd path = Except.error e1 →
      ValidateSnapshotFile fd path = Except.error e2 →
      e1.cls = e2.cls) ∧
    SnapBuildRestore fd path = ValidateSnapshotFile fd path := by
  refine ⟨?_, ?_, restore_eq_validate fd path⟩
  · rw [restore_eq_validate]
  · intro e1 e2 h1 h2
    rw [restore_eq_validate, h2] at h1
    injection h1 with h
    rw [h]

/-- Witness for C1 at a concrete rejected input (a missing file): both
readers reject, and with the same error class. -/
theorem claim_C1_witness :
    (ReadError.fileDoesNotExist "pg_logical/snapshots/0-10.snap").cls =
    (ReadError.fileDoesNotExist "pg_logical/snapshots/0-10.snap").cls :=
  (claim_C1 OpenResult.missing "pg_logical/snapshots/0-10.snap").2.1 _ _
    rfl rfl

/-- Claim C7: for every catalog-change set and threshold `t`,
`purge t` keeps exactly the entries `≥ t`, and preserves strict
ascending order. -/
theorem claim_C7 (t : Nat) (xip : List Nat) :
    (∀ x, x ∈ SnapBuildPurgeOlderTxn t xip ↔ (x ∈ xip ∧ t ≤ x)) ∧
    (List.Sorted (fun a b => a < b) xip →
      List.Sorted (fun a b => a < b) (SnapBuildPurgeOlderTxn t xip)) := by
  constructor
  · intro x
    simp [SnapBuildPurgeOlderTxn]
  · intro hs
    exact List.Pairwise.filter _ hs

/-- Witness for C7 at a concrete set and threshold. -/
theorem claim_C7_witness :
    (3 ∈ SnapBuildPurgeOlderTxn 3 [1, 3, 5] ↔ (3 ∈ [1, 3, 5] ∧ 3 ≤ 3)) ∧
    List.Sorted (fun a b => a < b) (SnapBuildPurgeOlderTxn 3 [1, 3, 5]) ∧
    SnapBuildPurgeOlderTxn 3 [1, 3, 5] = [3, 5] :=
  ⟨(claim_C7 3 [1, 3, 5]).1 3, (claim_C7 3 [1, 3, 5]).2 (by decide), rfl⟩

/-- Claim C8: at most one snapshot may be exported at a time: an export
while one is active fails with the already-exported error and leaves
the active export intact; after clearing, a subsequent export
succeeds. -/
theorem claim_C8 :
    (∀ (sb : SnapBuild) (s : Snapshot),
      SnapBuildExportSnapshot sb (some s) =
        (Except.error ExportError.alreadyExported, some s)) ∧
    (∀ (sb : SnapBuild) (es : Option Snapshot),
      SnapBuildExportSnapshot sb (SnapBuildClearExportedSnapshot es) =
        (Except.ok (SnapBuildInitialSnapshot sb),
          some (SnapBuildInitialSnapshot sb))) :=
  ⟨fun _ _ => rfl, fun _ _ => rfl⟩

/-- Claim C9: a missing snapshot file is a distinct "file does not
exist" error naming the path, different from other open failures
(which carry the system errno); a missing file is never an accepted,
valid state. -/
theorem claim_C9 (path : String) (e : Nat) :
    ValidateSnapshotFile OpenResult.missing path =
      Except.error (ReadError.fileDoesNotExist path) ∧
    ValidateSnapshotFile (OpenResult.ioError e) path =
      Except.error (ReadError.couldNotOpen path e) ∧
    (ReadError.fileDoesNotExist path).cls ≠
      (ReadError.couldNotOpen path e).cls ∧
    (∀ r, ValidateSnapshotFile OpenResult.missing path ≠ Except.ok r) := by
  refine ⟨rfl, rfl, by simp [ReadError.cls], ?_⟩
  intro r h
  simp [ValidateSnapshotFile] at h

instance decValidEvent (p : Nat) (sb : SnapBuild) (e : Event) :
    Decidable (ValidEvent p sb e) := by
  cases e <;> simp only [ValidEvent] <;> infer_instance

instance decCommitMentions (x : Nat) (e : Event) :
    Decidable (commitMentions x e) := by
  cases e <;> simp only [commitMentions] <;> infer_instance

def decValidRun : (p : Nat) → (sb : SnapBuild) → (es : List Event) →
    Decidable (ValidRun p sb es)
  | _, _, [] => isTrue trivial
  | p, sb, e :: es =>
      @instDecidableAnd _ _ (decValidEvent p sb e)
        (decValidRun (eventLsn e) (stepEvent sb e) es)

instance (p : Nat) (sb : SnapBuild) (es : List Event) :
    Decidable (ValidRun p sb es) := decValidRun p sb es

/-- Claim C4: over any valid event sequence, `xmin`, `xmax`,
`start_decoding_at` and the phase (under Start < BuildingSnapshot <
FullSnapshot < Consistent) are each non-decreasing between any two
points of the run, and `xmin ≤ xmax` holds after every event. -/
theorem claim_C4 (prevLsn : Nat) (sb : SnapBuild) (es1 es2 : List Event)
    (hv : ValidRun prevLsn sb (es1 ++ es2)) (hinv : sb.xmin ≤ sb.xmax) :
    (runEvents sb es1).xmin ≤ (runEvents sb (es1 ++ es2)).xmin ∧
    (runEvents sb es1).xmax ≤ (runEvents sb (es1 ++ es2)).xmax ∧
    (runEvents sb es1).start_decoding_at ≤
      (runEvents sb (es1 ++ es2)).start_decoding_at ∧
    (runEvents sb es1).state.idx ≤
      (runEvents sb (es1 ++ es2)).state.idx ∧
    (runEvents sb (es1 ++ es2)).xmin ≤ (runEvents sb (es1 ++ es2)).xmax := by
  obtain ⟨hv1, hv2⟩ := ValidRun_append prevLsn sb es1 es2 hv
  have h1 := runEvents_mono es1 prevLsn sb hv1 hinv
  have h2 := runEvents_mono es2 (lsnAfter prevLsn es1) (runEvents sb es1)
    hv2 h1.2.2.2.2
  rw [runEvents_append]
  exact ⟨h2.1, h2.2.1, h2.2.2.1, h2.2.2.2.1, h2.2.2.2.2⟩

/-- End-to-end scenario A of §8: builder with initial horizon 100; a
running-transactions probe with an empty running set; then a commit of
transaction 150. -/
def sbA : SnapBuild := AllocateSnapshotBuilder 100 0 false false 0

def eA1 : Event := Event.runningXacts 10 100 100 []

def eA2 : Event := Event.commit 150 20 [] true

/-- Witness for C4 on scenario A. -/
theorem claim_C4_witness :
    (runEvents sbA [eA1]).xmin ≤ (runEvents sbA ([eA1] ++ [eA2])).xmin ∧
    (runEvents sbA [eA1]).xmax ≤ (runEvents sbA ([eA1] ++ [eA2])).xmax ∧
    (runEvents sbA [eA1]).start_decoding_at ≤
      (runEvents sbA ([eA1] ++ [eA2])).start_decoding_at ∧
    (runEvents sbA [eA1]).state.idx ≤
      (runEvents sbA ([eA1] ++ [eA2])).state.idx ∧
    (runEvents sbA ([eA1] ++ [eA2])).xmin ≤
      (runEvents sbA ([eA1] ++ [eA2])).xmax :=
  claim_C4 0 sbA [eA1] [eA2] (by decide) (by decide)

/-- Claim C5: the decide-visibility query answers skip exactly when the
transaction started before `start_decoding_at`, or the phase has not
reached FullSnapshot, or (catalog-only filtering, phase Consistent) the
transaction is absent from the committed set; a transaction whose
change lies before `start_decoding_at` is never visible; a transaction
whose commit was never observed is never visible once Consistent; and
once Consistent a catalog-modifying transaction in the committed set is
visible. -/
theorem claim_C5 :
    (∀ (sb : SnapBuild) (lsn xid : Nat),
      SnapBuildXactNeedsSkip sb lsn xid = true ↔
        (lsn < sb.start_decoding_at ∨
          sb.state.idx < SnapBuildState.FULL_SNAPSHOT.idx ∨
          (sb.committed_includes_all_transactions = false ∧
            sb.state = SnapBuildState.CONSISTENT ∧
            xid ∉ sb.committed_xip))) ∧
    (∀ (sb : SnapBuild) (lsn xid : Nat), lsn < sb.start_decoding_at →
      SnapBuildXactNeedsSkip sb lsn xid = true) ∧
    (∀ (es : List Event) (sb : SnapBuild) (xid lsn : Nat),
      xid ∉ sb.committed_xip →
      (∀ e ∈ es, ¬ commitMentions xid e) →
      (sb.state = SnapBuildState.CONSISTENT →
        sb.committed_includes_all_transactions = false) →
      (runEvents sb es).state = SnapBuildState.CONSISTENT →
      SnapBuildXactNeedsSkip (runEvents sb es) lsn xid = true) ∧
    (∀ (sb : SnapBuild) (lsn xid : Nat),
      sb.state = SnapBuildState.CONSISTENT →
      xid ∈ sb.committed_xip →
      sb.start_decoding_at ≤ lsn →
      SnapBuildXactNeedsSkip sb lsn xid = false) := by
  refine ⟨?_, ?_, ?_, ?_⟩
  · intro sb lsn xid
    simp [SnapBuildXactNeedsSkip, Bool.or_eq_true, decide_eq_true_eq,
      Bool.and_eq_true, Bool.not_eq_true']
    tauto
  · intro sb lsn xid h
    simp [SnapBuildXactNeedsSkip, h]
  · intro es sb xid lsn h0 hne hcat hcons
    have hmem := not_committed_of_no_commit es sb xid h0 hne
    have hincl := consistent_catalogOnly es sb hcat hcons
    simp [SnapBuildXactNeedsSkip, hcons, hincl, hmem]
  · intro sb lsn xid hc hm hl
    simp [SnapBuildXactNeedsSkip, hc, hm, SnapBuildState.idx,
      Nat.not_lt.mpr hl]

/-- Witness for C5 on scenario A: after the run, transaction 150 (whose
commit was observed) is visible, and transaction 7 (no commit event
seen) is skipped. -/
theorem claim_C5_witness :
    SnapBuildXactNeedsSkip (runEvents sbA [eA1, eA2]) 5 7 = true ∧
    SnapBuildXactNeedsSkip (runEvents sbA [eA1, eA2]) 5 150 = false :=
  ⟨claim_C5.2.2.1 [eA1, eA2] sbA 7 5 (by decide) (by decide) (by decide)
      (by decide),
    claim_C5.2.2.2 (runEvents sbA [eA1, eA2]) 5 150 (by decide) (by decide)
      (by decide)⟩

/-- Rebuild an in-memory builder from a restored on-disk image (what
`SnapBuildRestore` installs into the live builder). -/
def SnapBuildOnDisk.toBuilder (r : SnapBuildOnDisk) : SnapBuild :=
  { state := r.builder.state
    xmin := r.builder.xmin
    xmax := r.builder.xmax
    start_decoding_at := r.builder.start_decoding_at
    two_phase_at := r.builder.two_phase_at
    initial_xmin_horizon := r.builder.initial_xmin_horizon
    building_full_snapshot := r.builder.building_full_snapshot
    in_slot_creation := r.builder.in_slot_creation
    last_serialized_snapshot := r.builder.last_serialized_snapshot
    next_phase_at := r.builder.next_phase_at
    committed_xcnt_space := r.builder.committed_xcnt_space
    committed_includes_all_transactions :=
      r.builder.committed_includes_all_transactions
    committed_xip := r.committed_xip
    catchange_xip := r.catchange_xip }

/-- Serializing a state whose committed array is already the writer's
sort produces the same bytes as serializing the original state. -/
theorem serialize_sortCommitted_eq (sb : SnapBuild) :
    SnapBuildSerialize
      { sb with
        committed_xip :=
          sb.committed_xip.insertionSort (fun a b => a ≤ b) } =
    SnapBuildSerialize sb := by
  have hperm := List.perm_insertionSort (fun a b => a ≤ b) sb.committed_xip
  have hidem :
      (sb.committed_xip.insertionSort
        (fun a b => a ≤ b)).insertionSort (fun a b => a ≤ b) =
      sb.committed_xip.insertionSort (fun a b => a ≤ b) :=
    List.Sorted.insertionSort_eq (List.sorted_insertionSort _ _)
  unfold SnapBuildSerialize serializePayload
  rw [show ({ sb with
        committed_xip :=
          sb.committed_xip.insertionSort (fun a b => a ≤ b) } :
      SnapBuild).committed_xip =
      sb.committed_xip.insertionSort (fun a b => a ≤ b) from rfl]
  rw [hidem, hperm.length_eq]

/-- Claim C3: serializing a valid builder state and deserializing the
bytes yields logically identical state — equal scalar fields, equal
committed-set count and elements (as the writer's sorted copy), equal
catalog-change set — and serializing the restored state reproduces the
same bytes. -/
theorem claim_C3 (sb : SnapBuild) (path : String) (hv : sb.valid) :
    ∃ r, ValidateSnapshotFile (OpenResult.ok (SnapBuildSerialize sb))
        path = Except.ok r ∧
      r.builder.state = sb.state ∧
      r.builder.xmin = sb.xmin ∧
      r.builder.xmax = sb.xmax ∧
      r.builder.start_decoding_at = sb.start_decoding_at ∧
      r.builder.two_phase_at = sb.two_phase_at ∧
      r.builder.initial_xmin_horizon = sb.initial_xmin_horizon ∧
      r.builder.building_full_snapshot = sb.building_full_snapshot ∧
      r.builder.in_slot_creation = sb.in_slot_creation ∧
      r.builder.last_serialized_snapshot = sb.last_serialized_snapshot ∧
      r.builder.next_phase_at = sb.next_phase_at ∧
      r.builder.committed_includes_all_transactions =
        sb.committed_includes_all_transactions ∧
      r.committed_xip.length = sb.committed_xip.length ∧
      r.committed_xip.Perm sb.committed_xip ∧
      r.catchange_xip = sb.catchange_xip ∧
      SnapBuildSerialize r.toBuilder = SnapBuildSerialize sb := by
  have hperm := List.perm_insertionSort (fun a b => a ≤ b) sb.committed_xip
  refine ⟨_, validate_serialize sb path hv, rfl, rfl, rfl, rfl, rfl, rfl,
    rfl, rfl, rfl, rfl, rfl, hperm.length_eq, hperm, rfl, ?_⟩
  exact serialize_sortCommitted_eq sb

/-- End-to-end scenario B of §8: a builder state with committed ids
101 and 103 (listed unsorted, as the live append-order array may be). -/
def sbB : SnapBuild :=
  { AllocateSnapshotBuilder 0 500 false false 0 with
    committed_xip := [103, 101] }

/-- Witness for C3 on scenario B. -/
theorem claim_C3_witness :
    ∃ r, ValidateSnapshotFile (OpenResult.ok (SnapBuildSerialize sbB))
        "pg_logical/snapshots/0-1F4.snap" = Except.ok r ∧
      r.builder.state = sbB.state ∧
      r.builder.xmin = sbB.xmin ∧
      r.builder.xmax = sbB.xmax ∧
      r.builder.start_decoding_at = sbB.start_decoding_at ∧
      r.builder.two_phase_at = sbB.two_phase_at ∧
      r.builder.initial_xmin_horizon = sbB.initial_xmin_horizon ∧
      r.builder.building_full_snapshot = sbB.building_full_snapshot ∧
      r.builder.in_slot_creation = sbB.in_slot_creation ∧
      r.builder.last_serialized_snapshot = sbB.last_serialized_snapshot ∧
      r.builder.next_phase_at = sbB.next_phase_at ∧
      r.builder.committed_includes_all_transactions =
        sbB.committed_includes_all_transactions ∧
      r.committed_xip.length = sbB.committed_xip.length ∧
      r.committed_xip.Perm sbB.committed_xip ∧
      r.catchange_xip = sbB.catchange_xip ∧
      SnapBuildSerialize r.toBuilder = SnapBuildSerialize sbB :=
  claim_C3 sbB "pg_logical/snapshots/0-1F4.snap" (by decide)

/-- The image the reader restores from a writer-produced payload with
stored checksum word `cks`. -/
def restoredOf (sb : SnapBuild) (cks : Nat) : SnapBuildOnDisk :=
  { magic := SNAPBUILD_MAGIC
    checksum := cks
    version := SNAPBUILD_VERSION
    length := sizeofSnapBuild + 4 * sb.committed_xip.length +
      4 * sb.catchange_xip.length
    builder := SnapBuild.fields
      { sb with
        committed_xip := sb.committed_xip.insertionSort (fun a b => a ≤ b) }
    committed_xip := sb.committed_xip.insertionSort (fun a b => a ≤ b)
    catchange_xip := sb.catchange_xip }

/-- On a writer-shaped file with arbitrary stored checksum word, the
reader reaches the final comparison: it accepts exactly when the stored
word equals the CRC of the payload (the bytes from the version field
through the end of the file), rejecting otherwise with the
checksum-mismatch error carrying both values. -/
theorem validate_payload_ite (sb : SnapBuild) (path : String) (cks : Nat)
    (hv : sb.valid) (hcks : cks < 4294967296) :
    ValidateSnapshotFile (OpenResult.ok (u32le SNAPBUILD_MAGIC ++
      u32le cks ++ serializePayload sb)) path =
    if crc32cOf (serializePayload sb) = cks then
      Except.ok (restoredOf sb cks)
    else
      Except.error (ReadError.checksumMismatch path
        (crc32cOf (serializePayload sb)) cks) := by
  obtain ⟨h1, h2, h3, h4, h5, h6, h7, h8, h9, h10, h11, h12, h13⟩ := hv
  have hperm := List.perm_insertionSort (fun a b => a ≤ b) sb.committed_xip
  have hv2 := valid_sortCommitted sb
    ⟨h1, h2, h3, h4, h5, h6, h7, h8, h9, h10, h11, h12, h13⟩
  have hdec :
      decodeSnapBuild (encodeSnapBuild
        { sb with
          committed_xip :=
            sb.committed_xip.insertionSort (fun a b => a ≤ b) }) =
      SnapBuild.fields
        { sb with
          committed_xip :=
            sb.committed_xip.insertionSort (fun a b => a ≤ b) } :=
    decodeSnapBuild_encodeSnapBuild_exact _ hv2
  have hshape :
      u32le SNAPBUILD_MAGIC ++ u32le cks ++ serializePayload sb =
      u32le SNAPBUILD_MAGIC ++ u32le cks ++ u32le SNAPBUILD_VERSION ++
        u32le (sizeofSnapBuild + 4 * sb.committed_xip.length +
          4 * sb.catchange_xip.length) ++
        encodeSnapBuild
          { sb with
            committed_xip :=
              sb.committed_xip.insertionSort (fun a b => a ≤ b) } ++
        xidsBytes (sb.committed_xip.insertionSort (fun a b => a ≤ b)) ++
        xidsBytes sb.catchange_xip := by
    unfold serializePayload
    simp [List.append_assoc]
  rw [hshape]
  rw [validate_wellShaped path _ _ _ _ _
    (encodeSnapBuild_length _)
    (by rw [hdec]
        unfold SnapBuild.fields
        rw [xidsBytes_length, hperm.length_eq])
    (by rw [hdec]
        unfold SnapBuild.fields
        rw [xidsBytes_length])
    hcks (by unfold sizeofSnapBuild; omega)]
  have hpay :
      u32le SNAPBUILD_VERSION ++
        u32le (sizeofSnapBuild + 4 * sb.committed_xip.length +
          4 * sb.catchange_xip.length) ++
        encodeSnapBuild
          { sb with
            committed_xip :=
              sb.committed_xip.insertionSort (fun a b => a ≤ b) } ++
        xidsBytes (sb.committed_xip.insertionSort (fun a b => a ≤ b)) ++
        xidsBytes sb.catchange_xip = serializePayload sb := by
    unfold serializePayload
    rfl
  rw [hpay, hdec]
  have hcx :
      decodeXids (SnapBuild.fields
        { sb with
          committed_xip :=
            sb.committed_xip.insertionSort (fun a b => a ≤ b) }).committed_xcnt
        (xidsBytes (sb.committed_xip.insertionSort (fun a b => a ≤ b))) =
      sb.committed_xip.insertionSort (fun a b => a ≤ b) := by
    unfold SnapBuild.fields
    exact decodeXids_xidsBytes_exact _
      (fun z hz => h10 z (hperm.mem_iff.mp hz))
  have hgx :
      decodeXids (SnapBuild.fields
        { sb with
          committed_xip :=
            sb.committed_xip.insertionSort (fun a b => a ≤ b) }).catchange_xcnt
        (xidsBytes sb.catchange_xip) = sb.catchange_xip := by
    unfold SnapBuild.fields
    exact decodeXids_xidsBytes_exact _ h12
  rw [hcx, hgx]
  rfl

/-- Claim C6: the stored checksum of an on-disk snapshot file covers
exactly the bytes from the version field through the end of the file
(version, length, the fixed builder block, the committed array, the
catalog-change array, in that literal order), and excludes the magic
and checksum fields themselves. -/
theorem claim_C6 (sb : SnapBuild) (path : String) (cks : Nat)
    (hv : sb.valid) (hcks : cks < 4294967296) :
    (SnapBuildSerialize sb = u32le SNAPBUILD_MAGIC ++
      u32le (crc32cOf (serializePayload sb)) ++ serializePayload sb) ∧
    (serializePayload sb = u32le SNAPBUILD_VERSION ++
      u32le (sizeofSnapBuild + 4 * sb.committed_xip.length +
        4 * sb.catchange_xip.length) ++
      encodeSnapBuild
        { sb with
          committed_xip :=
            sb.committed_xip.insertionSort (fun a b => a ≤ b) } ++
      xidsBytes (sb.committed_xip.insertionSort (fun a b => a ≤ b)) ++
      xidsBytes sb.catchange_xip) ∧
    ((∃ r, ValidateSnapshotFile (OpenResult.ok (u32le SNAPBUILD_MAGIC ++
        u32le cks ++ serializePayload sb)) path = Except.ok r) ↔
      cks = crc32cOf (serializePayload sb)) := by
  refine ⟨rfl, rfl, ?_⟩
  rw [validate_payload_ite sb path cks hv hcks]
  by_cases he : crc32cOf (serializePayload sb) = cks
  · rw [if_pos he]
    simp [he]
  · rw [if_neg he]
    constructor
    · intro hex
      obtain ⟨r, hr⟩ := hex
      exact absurd hr (by simp)
    · intro he2
      exact absurd he2.symm he

/-- Witness for C6 at a concrete state and stored checksum word. -/
theorem claim_C6_witness :
    (SnapBuildSerialize sbB = u32le SNAPBUILD_MAGIC ++
      u32le (crc32cOf (serializePayload sbB)) ++ serializePayload sbB) ∧
    (serializePayload sbB = u32le SNAPBUILD_VERSION ++
      u32le (sizeofSnapBuild + 4 * sbB.committed_xip.length +
        4 * sbB.catchange_xip.length) ++
      encodeSnapBuild
        { sbB with
          committed_xip :=
            sbB.committed_xip.insertionSort (fun a b => a ≤ b) } ++
      xidsBytes (sbB.committed_xip.insertionSort (fun a b => a ≤ b)) ++
      xidsBytes sbB.catchange_xip) ∧
    ((∃ r, ValidateSnapshotFile (OpenResult.ok (u32le SNAPBUILD_MAGIC ++
        u32le 7 ++ serializePayload sbB))
        "pg_logical/snapshots/0-1F4.snap" = Except.ok r) ↔
      7 = crc32cOf (serializePayload sbB)) :=
  claim_C6 sbB "pg_logical/snapshots/0-1F4.snap" 7 (by decide) (by decide)

/-- A single-byte difference anywhere in the checksummed region of a
well-shaped file (declared counts unchanged) is caught by the final
checksum comparison: the read fails with the checksum-mismatch error
carrying the actual and expected values. -/
theorem validate_flip (path : String) (len : Nat) (blk a1 a2 : List Nat)
    (c m : List Nat) (x y : Nat)
    (hblk : blk.length = sizeofSnapBuild)
    (ha1 : a1.length = 4 * (decodeSnapBuild blk).committed_xcnt)
    (ha2 : a2.length = 4 * (decodeSnapBuild blk).catchange_xcnt)
    (hlen : len < 4294967296)
    (hq : u32le SNAPBUILD_VERSION ++ u32le len ++ blk ++ a1 ++ a2 =
      c ++ y :: m)
    (hx : x < 256) (hy : y < 256) (hxy : x ≠ y) :
    ValidateSnapshotFile (OpenResult.ok (u32le SNAPBUILD_MAGIC ++
      u32le (crc32cOf (c ++ x :: m)) ++
      (u32le SNAPBUILD_VERSION ++ u32le len ++ blk ++ a1 ++ a2))) path =
    Except.error (ReadError.checksumMismatch path
      (crc32cOf (c ++ y :: m)) (crc32cOf (c ++ x :: m))) ∧
    crc32cOf (c ++ y :: m) ≠ crc32cOf (c ++ x :: m) := by
  have hne : crc32cOf (c ++ y :: m) ≠ crc32cOf (c ++ x :: m) := by
    unfold crc32cOf
    exact crcFin_inj
      (crcComp_single_byte_flip c m (by decide) hy hx (Ne.symm hxy))
  have hstep :
      ValidateSnapshotFile (OpenResult.ok (u32le SNAPBUILD_MAGIC ++
        u32le (crc32cOf (c ++ x :: m)) ++ u32le SNAPBUILD_VERSION ++
        u32le len ++ blk ++ a1 ++ a2)) path =
      Except.error (ReadError.checksumMismatch path
        (crc32cOf (u32le SNAPBUILD_VERSION ++ u32le len ++ blk ++ a1 ++ a2))
        (crc32cOf (c ++ x :: m))) := by
    rw [validate_wellShaped path blk a1 a2 len (crc32cOf (c ++ x :: m))
      hblk ha1 ha2 (crc32cOf_lt _) hlen]
    rw [if_neg (by rw [hq]; exact hne)]
  have hgroup :
      u32le SNAPBUILD_MAGIC ++ u32le (crc32cOf (c ++ x :: m)) ++
        (u32le SNAPBUILD_VERSION ++ u32le len ++ blk ++ a1 ++ a2) =
      u32le SNAPBUILD_MAGIC ++ u32le (crc32cOf (c ++ x :: m)) ++
        u32le SNAPBUILD_VERSION ++ u32le len ++ blk ++ a1 ++ a2 := by
    simp [List.append_assoc]
  rw [hgroup, hstep, hq]
  exact ⟨rfl, hne⟩

/-- Claim C2 (amended): a wrong magic field and a wrong version field
are rejected with the corresponding named data-corruption error,
independently of the stored checksum word; and when magic and version
match, a single differing byte anywhere in the checksummed payload that
leaves the declared array counts matching the bytes present makes the
read fail with a checksum-mismatch error naming the file and both the
expected and the actual checksum values. -/
theorem claim_C2 :
    (∀ (path : String) (m c v l : Nat) (tail : List Nat),
      m < 4294967296 → m ≠ SNAPBUILD_MAGIC →
      ValidateSnapshotFile (OpenResult.ok (u32le m ++ u32le c ++
        u32le v ++ u32le l ++ tail)) path =
        Except.error (ReadError.wrongMagic path m SNAPBUILD_MAGIC)) ∧
    (∀ (path : String) (c v l : Nat) (tail : List Nat),
      v < 4294967296 → v ≠ SNAPBUILD_VERSION →
      ValidateSnapshotFile (OpenResult.ok (u32le SNAPBUILD_MAGIC ++
        u32le c ++ u32le v ++ u32le l ++ tail)) path =
        Except.error (ReadError.wrongVersion path v SNAPBUILD_VERSION)) ∧
    (∀ (path : String) (len : Nat) (blk a1 a2 c m : List Nat) (x y : Nat),
      blk.length = sizeofSnapBuild →
      a1.length = 4 * (decodeSnapBuild blk).committed_xcnt →
      a2.length = 4 * (decodeSnapBuild blk).catchange_xcnt →
      len < 4294967296 →
      u32le SNAPBUILD_VERSION ++ u32le len ++ blk ++ a1 ++ a2 =
        c ++ y :: m →
      x < 256 → y < 256 → x ≠ y →
      ValidateSnapshotFile (OpenResult.ok (u32le SNAPBUILD_MAGIC ++
        u32le (crc32cOf (c ++ x :: m)) ++
        (u32le SNAPBUILD_VERSION ++ u32le len ++ blk ++ a1 ++ a2))) path =
        Except.error (ReadError.checksumMismatch path
          (crc32cOf (c ++ y :: m)) (crc32cOf (c ++ x :: m))) ∧
      crc32cOf (c ++ y :: m) ≠ crc32cOf (c ++ x :: m)) := by
  refine ⟨?_, ?_, ?_⟩
  · intro path m c v l tail hm hne
    exact validate_wrongMagic path m c v l tail hm hne
  · intro path c v l tail hv hne
    exact validate_wrongVersion path c v l tail hv hne
  · intro path len blk a1 a2 c m x y hblk ha1 ha2 hlen hq hx hy hxy
    exact validate_flip path len blk a1 a2 c m x y hblk ha1 ha2 hlen hq
      hx hy hxy

/-- A minimal valid builder state used for the corruption examples. -/
def sbEx : SnapBuild := AllocateSnapshotBuilder 0 0 false false 0

/-- The serialized file of `sbEx` with the low byte of the declared
committed count (file offset 16 + 70 = 86, inside the checksummed
payload) flipped from 0 to 1. -/
def cfileC2 : List Nat := (SnapBuildSerialize sbEx).set 86 1

set_option maxRecDepth 100000 in
/-- Counterexample to C2 as stated: a file whose magic and version
match and which differs from a validating file in exactly one byte of
the checksummed payload, yet the read fails with a could-not-read
(truncation) corruption error — not a checksum-mismatch error —
because the flipped byte raised the declared committed count. -/
theorem claim_C2_counterexample :
    ValidateSnapshotFile (OpenResult.ok cfileC2) "f" =
      Except.error (ReadError.couldNotRead "f") ∧
    (ReadError.couldNotRead "f").cls ≠ ReadErrorClass.badChecksum ∧
    cfileC2.take 4 = u32le SNAPBUILD_MAGIC ∧
    (cfileC2.drop 8).take 4 = u32le SNAPBUILD_VERSION ∧
    cfileC2.length = (SnapBuildSerialize sbEx).length ∧
    cfileC2 = (SnapBuildSerialize sbEx).set 86 1 ∧
    (SnapBuildSerialize sbEx).get? 86 = some 0 ∧
    ValidateSnapshotFile (OpenResult.ok (SnapBuildSerialize sbEx)) "f" =
      Except.ok (restoredOf sbEx (crc32cOf (serializePayload sbEx))) := by
  refine ⟨rfl, by decide, rfl, rfl, rfl, rfl, rfl, ?_⟩
  have := validate_payload_ite sbEx "f" (crc32cOf (serializePayload sbEx))
    (by decide) (crc32cOf_lt _)
  rw [show SnapBuildSerialize sbEx = u32le SNAPBUILD_MAGIC ++
    u32le (crc32cOf (serializePayload sbEx)) ++ serializePayload sbEx
    from rfl]
  rw [this, if_pos rfl]

def pExHead : List Nat := (serializePayload sbEx).dropLast

def blkFlip : List Nat := (encodeSnapBuild sbEx).dropLast ++ [1]

set_option maxRecDepth 100000 in
/-- Witness for C2 (amended) at a concrete one-byte corruption of the
last checksummed byte of a minimal file. -/
theorem claim_C2_witness :
    ValidateSnapshotFile (OpenResult.ok (u32le SNAPBUILD_MAGIC ++
      u32le (crc32cOf (pExHead ++ 0 :: [])) ++
      (u32le SNAPBUILD_VERSION ++ u32le 111 ++ blkFlip ++ [] ++ []))) "f" =
      Except.error (ReadError.checksumMismatch "f"
        (crc32cOf (pExHead ++ 1 :: [])) (crc32cOf (pExHead ++ 0 :: []))) ∧
    crc32cOf (pExHead ++ 1 :: []) ≠ crc32cOf (pExHead ++ 0 :: []) :=
  claim_C2.2.2 "f" 111 blkFlip [] [] pExHead [] 0 1 (by decide) (by decide)
    (by decide) (by decide) (by decide) (by decide) (by decide) (by decide)

/-- Claim C10 (amended): the metadata query validates the entire file
first — an ok answer implies the full read (including both arrays and
the checksum comparison) succeeded, and any validation error surfaces
unchanged; a one-byte corruption of the checksummed payload that keeps
the declared counts matching the bytes present makes even the metadata
query fail with the checksum-mismatch error instead of returning the
header fields. -/
theorem claim_C10 :
    (∀ (fd : OpenResult) (path : String) (r : Nat × Nat × Nat),
      pg_get_logical_snapshot_meta fd path = Except.ok r →
      ∃ od, ValidateSnapshotFile fd path = Except.ok od ∧
        r = (od.magic, od.checksum, od.version)) ∧
    (∀ (fd : OpenResult) (path : String) (e : ReadError),
      ValidateSnapshotFile fd path = Except.error e →
      pg_get_logical_snapshot_meta fd path = Except.error e) ∧
    (∀ (path : String) (len : Nat) (blk a1 a2 c m : List Nat) (x y : Nat),
      blk.length = sizeofSnapBuild →
      a1.length = 4 * (decodeSnapBuild blk).committed_xcnt →
      a2.length = 4 * (decodeSnapBuild blk).catchange_xcnt →
      len < 4294967296 →
      u32le SNAPBUILD_VERSION ++ u32le len ++ blk ++ a1 ++ a2 =
        c ++ y :: m →
      x < 256 → y < 256 → x ≠ y →
      pg_get_logical_snapshot_meta (OpenResult.ok (u32le SNAPBUILD_MAGIC ++
        u32le (crc32cOf (c ++ x :: m)) ++
        (u32le SNAPBUILD_VERSION ++ u32le len ++ blk ++ a1 ++ a2))) path =
        Except.error (ReadError.checksumMismatch path
          (crc32cOf (c ++ y :: m)) (crc32cOf (c ++ x :: m)))) := by
  refine ⟨?_, ?_, ?_⟩
  · intro fd path r h
    unfold pg_get_logical_snapshot_meta at h
    cases hval : ValidateSnapshotFile fd path with
    | error e =>
        rw [hval] at h
        cases h
    | ok od =>
        rw [hval] at h
        injection h with h2
        exact ⟨od, rfl, h2.symm⟩
  · intro fd path e h
    unfold pg_get_logical_snapshot_meta
    rw [h]
  · intro path len blk a1 a2 c m x y hblk ha1 ha2 hlen hq hx hy hxy
    have hf := validate_flip path len blk a1 a2 c m x y hblk ha1 ha2 hlen
      hq hx hy hxy
    unfold pg_get_logical_snapshot_meta
    rw [hf.1]

/-- A second minimal valid builder state, for the metadata-query
corruption examples. -/
def sbEx10 : SnapBuild := AllocateSnapshotBuilder 1 2 true false 3

/-- The serialized file of `sbEx10` with the low byte of the declared
committed count (file offset 86) flipped from 0 to 2. -/
def cfileC10 : List Nat := (SnapBuildSerialize sbEx10).set 86 2

set_option maxRecDepth 100000 in
/-- Counterexample to C10 as stated: a file corrupted in one byte of
the checksummed payload after the header, on which the metadata query
fails with a could-not-read (truncation) corruption error — not a
checksum-mismatch error — because the flipped byte raised the declared
committed count. -/
theorem claim_C10_counterexample :
    pg_get_logical_snapshot_meta (OpenResult.ok cfileC10) "g" =
      Except.error (ReadError.couldNotRead "g") ∧
    (ReadError.couldNotRead "g").cls ≠ ReadErrorClass.badChecksum ∧
    cfileC10.take 4 = u32le SNAPBUILD_MAGIC ∧
    (cfileC10.drop 8).take 4 = u32le SNAPBUILD_VERSION ∧
    cfileC10.length = (SnapBuildSerialize sbEx10).length ∧
    cfileC10 = (SnapBuildSerialize sbEx10).set 86 2 ∧
    (SnapBuildSerialize sbEx10).get? 86 = some 0 ∧
    pg_get_logical_snapshot_meta
      (OpenResult.ok (SnapBuildSerialize sbEx10)) "g" =
      Except.ok (SNAPBUILD_MAGIC, crc32cOf (serializePayload sbEx10),
        SNAPBUILD_VERSION) := by
  refine ⟨rfl, by decide, rfl, rfl, rfl, rfl, rfl, ?_⟩
  have hpi := validate_payload_ite sbEx10 "g"
    (crc32cOf (serializePayload sbEx10)) (by decide) (crc32cOf_lt _)
  unfold pg_get_logical_snapshot_meta
  rw [show SnapBuildSerialize sbEx10 = u32le SNAPBUILD_MAGIC ++
    u32le (crc32cOf (serializePayload sbEx10)) ++ serializePayload sbEx10
    from rfl]
  rw [hpi, if_pos rfl]
  rfl

def pEx10Head : List Nat := (serializePayload sbEx10).dropLast

def blkFlip10 : List Nat := (encodeSnapBuild sbEx10).dropLast ++ [5]

set_option maxRecDepth 100000 in
/-- Witness for C10 (amended) at a concrete one-byte corruption. -/
theorem claim_C10_witness :
    pg_get_logical_snapshot_meta (OpenResult.ok (u32le SNAPBUILD_MAGIC ++
      u32le (crc32cOf (pEx10Head ++ 0 :: [])) ++
      (u32le SNAPBUILD_VERSION ++ u32le 111 ++ blkFlip10 ++ [] ++ [])))
      "g" =
      Except.error (ReadError.checksumMismatch "g"
        (crc32cOf (pEx10Head ++ 5 :: []))
        (crc32cOf (pEx10Head ++ 0 :: []))) :=
  claim_C10.2.2 "g" 111 blkFlip10 [] [] pEx10Head [] 0 5 (by decide)
    (by decide) (by decide) (by decide) (by decide) (by decide) (by decide)
    (by decide)

/-- Witness for C8 at a concrete builder and exported snapshot. -/
theorem claim_C8_witness :
    SnapBuildExportSnapshot sbA
      (some (SnapBuildInitialSnapshot sbA)) =
      (Except.error ExportError.alreadyExported,
        some (SnapBuildInitialSnapshot sbA)) ∧
    SnapBuildExportSnapshot sbA
      (SnapBuildClearExportedSnapshot
        (some (SnapBuildInitialSnapshot sbA))) =
      (Except.ok (SnapBuildInitialSnapshot sbA),
        some (SnapBuildInitialSnapshot sbA)) :=
  ⟨claim_C8.1 sbA (SnapBuildInitialSnapshot sbA),
    claim_C8.2 sbA (some (SnapBuildInitialSnapshot sbA))⟩

/-- Witness for C9 at a concrete path and errno. -/
theorem claim_C9_witness :
    ValidateSnapshotFile OpenResult.missing
      "pg_logical/snapshots/0-0.snap" =
      Except.error (ReadError.fileDoesNotExist
        "pg_logical/snapshots/0-0.snap") ∧
    ValidateSnapshotFile (OpenResult.ioError 13)
      "pg_logical/snapshots/0-0.snap" =
      Except.error (ReadError.couldNotOpen
        "pg_logical/snapshots/0-0.snap" 13) ∧
    (ReadError.fileDoesNotExist "pg_logical/snapshots/0-0.snap").cls ≠
      (ReadError.couldNotOpen "pg_logical/snapshots/0-0.snap" 13).cls :=
  ⟨(claim_C9 "pg_logical/snapshots/0-0.snap" 13).1,
    (claim_C9 "pg_logical/snapshots/0-0.snap" 13).2.1,
    (claim_C9 "pg_logical/snapshots/0-0.snap" 13).2.2.1⟩

end SnapInspect
